import Mathlib

/-!
Shallow embedding of `Src/DGSLEffectFactory.cpp` (DirectXTK).

The file implements `DGSLEffectFactory::Impl`, a per-device caching factory
for DGSL effects, textures and pixel shaders.  Wide strings (`WCHAR*`) are
modelled as `List Char`, with nullable pointers as `Option (List Char)`.
`XMFLOAT3` components are only ever tested against zero here, so they are
modelled as integers.  External collaborators (texture loaders, binary file
reader, `ID3D11Device::CreatePixelShader`, the device feature level) are an
explicit environment `Env`; a call can fail (`ThrowIfFailed`), modelled as
`Option`.  Each operation additionally returns a trace of events recording
external calls and mutex acquire/release, so that locking discipline and
loader dispatch are observable.
-/

namespace DGSLFactory

/-- `XMFLOAT3`: the factory only loads these and tests components against 0. -/
structure XMFLOAT3 where
  x : Int
  y : Int
  z : Int
  deriving DecidableEq, Repr

/-- `IEffectFactory::EffectInfo` (the fields read by `DGSLEffectFactory.cpp`). -/
structure EffectInfo where
  name : Option (List Char)
  alpha : Int
  ambientColor : XMFLOAT3
  diffuseColor : XMFLOAT3
  specularColor : XMFLOAT3
  specularPower : Int
  emissiveColor : XMFLOAT3
  texture : Option (List Char)
  deriving DecidableEq, Repr

/-- `DGSLEffectFactory::DGSLEffectInfo : EffectInfo` adds a pixel shader name
and seven extra texture slots (`const WCHAR* textures[7]`). -/
structure DGSLEffectInfo extends EffectInfo where
  pixelShader : Option (List Char)
  textures : List (Option (List Char))
  deriving DecidableEq, Repr

/-- The observable configuration of a `DGSLEffect` object after the factory's
setter calls.  `id` identifies the heap allocation (`std::make_shared`), so
"the identical instance" is equality of `id`.  `ctorPixelShader` is the pixel
shader passed to the constructor, if any. -/
structure DGSLEffect where
  id : Nat
  ctorPixelShader : Option Nat
  defaultLighting : Bool := false
  lightingEnabled : Bool := false
  ambientColor : XMFLOAT3 := ⟨0, 0, 0⟩
  diffuseColor : XMFLOAT3 := ⟨0, 0, 0⟩
  alpha : Int := 0
  specular : Option (XMFLOAT3 × Int) := none
  specularDisabled : Bool := false
  emissive : Option XMFLOAT3 := none
  textureSlots : List (Option Nat) := List.replicate 8 none
  textureEnabled : Bool := false
  deriving DecidableEq, Repr

/-- `std::make_shared<DGSLEffect>(device)` / `(device, ps)`: a fresh object. -/
def mkDGSLEffect (id : Nat) (ps : Option Nat) : DGSLEffect :=
  { id := id, ctorPixelShader := ps }

/-- The state of one `DGSLEffectFactory::Impl` (lines 50-62): the device, the
sharing flag, and the three caches (`std::map` keyed by `std::wstring`,
modelled as association lists with first-match lookup).  `nextEffectId` is the
allocator for fresh effect objects. -/
structure FactoryState where
  device : Nat
  mSharing : Bool
  mEffectCache : List (List Char × DGSLEffect)
  mTextureCache : List (List Char × Nat)
  mShaderCache : List (List Char × Nat)
  nextEffectId : Nat
  deriving DecidableEq, Repr

/-- External collaborators: the device feature level, the DDS and WIC texture
loaders (the `Bool` records whether a device context is passed to WIC),
`BinaryReader::ReadEntireFile` and `ID3D11Device::CreatePixelShader`.
A `none` result models an HRESULT failure (`ThrowIfFailed` throws). -/
structure Env where
  featureLevel : Nat
  loadDDS : List Char → Option Nat
  loadWIC : Bool → List Char → Option Nat
  readEntireFile : List Char → Option (List Nat)
  devCreatePixelShader : List Nat → Option Nat

/-- Exceptions thrown by the factory. -/
inductive FError
  | invalidArgs
  | hrFail
  deriving DecidableEq, Repr

/-- Observable events of a run: mutex acquire/release, cache lookups and
mutations, and calls into external collaborators. -/
inductive Event
  | lock
  | unlock
  | findEffect (key : List Char)
  | findTexture (key : List Char)
  | findShader (key : List Char)
  | insertEffect (key : List Char)
  | insertTexture (key : List Char)
  | insertShader (key : List Char)
  | clearCaches
  | callDDS (name : List Char)
  | callWIC (ctx : Bool) (name : List Char)
  | readFile (name : List Char)
  | callCreatePS
  deriving DecidableEq, Repr

/-! ### Wide-string helpers from the source -/

/-- `_wcsicmp(a, b) == 0`: case-insensitive string equality. -/
def wcsicmpEq (a b : List Char) : Bool :=
  a.map Char.toLower == b.map Char.toLower

/-- Lines 152-165: the shader "root" is the substring after the last `'_'`
(`wcsrchr`), or the whole name when there is none, truncated at the first
`'.'` (`wcschr`). -/
def shaderRoot (s : List Char) : List Char :=
  ((s.reverse.takeWhile (fun c => c != '_')).reverse).takeWhile (fun c => c != '.')

/-- A character ending the file-name portion of a path for `_wsplitpath_s`. -/
def pathSeparator (c : Char) : Bool :=
  c == '/' || c == '\\' || c == ':'

/-- The file-name-plus-extension portion of a path. -/
def fileName (s : List Char) : List Char :=
  (s.reverse.takeWhile (fun c => !pathSeparator c)).reverse

/-- Line 284 `_wsplitpath_s`: the extension is the portion of the last path
component from its last `'.'` (inclusive) to the end; empty when there is no
dot. -/
def fileExt (s : List Char) : List Char :=
  let base := fileName s
  if base.contains '.' then
    '.' :: (base.reverse.takeWhile (fun c => c != '.')).reverse
  else []

def dot_dds : List Char := ['.', 'd', 'd', 's']

def csoExt : List Char := ['.', 'c', 's', 'o']

def lambertName : List Char := ['l', 'a', 'm', 'b', 'e', 'r', 't']

def phongName : List Char := ['p', 'h', 'o', 'n', 'g']

def unlitName : List Char := ['u', 'n', 'l', 'i', 't']

def D3D_FEATURE_LEVEL_10_0 : Nat := 40960

/-- The C++ idiom `name && *name`: a non-null, non-empty string. -/
def nonEmptyName (name : Option (List Char)) : Option (List Char) :=
  match name with
  | some n => if n.isEmpty then none else some n
  | none => none

/-! ### `DGSLEffectFactory::Impl::CreateTexture` (lines 266-317) -/

/-- Lines 282-309: load a texture on a cache miss, dispatching on the file
extension.  The WIC-with-context call (lines 292-298) runs under the mutex. -/
def textureLoad (env : Env) (dctx : Bool) (n : List Char) :
    Option Nat × List Event :=
  if wcsicmpEq (fileExt n) dot_dds then
    (env.loadDDS n, [Event.callDDS n])
  else if dctx then
    (env.loadWIC true n, [Event.lock, Event.callWIC true n, Event.unlock])
  else
    (env.loadWIC false n, [Event.callWIC false n])

/-- The miss side of `CreateTexture` (lines 280-316): load, then insert into
the cache when `mSharing && *name && it == mTextureCache.end()`; `wasMiss`
records `it == mTextureCache.end()` from the find at line 272. -/
def textureMiss (env : Env) (dctx : Bool) (n : List Char) (wasMiss : Bool)
    (s : FactoryState) : Except FError Nat × FactoryState × List Event :=
  match textureLoad env dctx n with
  | (none, tr) => (.error .hrFail, s, Event.findTexture n :: tr)
  | (some srv, tr) =>
    if s.mSharing && !n.isEmpty && wasMiss then
      (.ok srv, { s with mTextureCache := s.mTextureCache ++ [(n, srv)] },
       (Event.findTexture n :: tr) ++ [Event.lock, Event.insertTexture n, Event.unlock])
    else
      (.ok srv, s, Event.findTexture n :: tr)

/-- Lines 266-317.  `name = none` models a null `name` pointer and
`outValid = false` a null `textureView` pointer; both throw
`std::exception("invalid arguments")`.  On `mSharing` and a cache hit the
cached view is returned (the `AddRef` is reference-count bookkeeping with no
observable state here). -/
def CreateTexture (env : Env) (dctx : Bool) (name : Option (List Char))
    (outValid : Bool) (s : FactoryState) :
    Except FError Nat × FactoryState × List Event :=
  match name with
  | none => (.error .invalidArgs, s, [])
  | some n =>
    if outValid then
      match List.lookup n s.mTextureCache with
      | some srv =>
        if s.mSharing then (.ok srv, s, [Event.findTexture n])
        else textureMiss env dctx n false s
      | none => textureMiss env dctx n true s
    else (.error .invalidArgs, s, [])

/-! ### `DGSLEffectFactory::Impl::CreatePixelShader` (lines 320-351) -/

/-- The miss side of `CreatePixelShader` (lines 334-350): read the shader
blob, create the pixel shader, then insert when
`mSharing && *name && it == mShaderCache.end()`. -/
def shaderMiss (env : Env) (n : List Char) (wasMiss : Bool) (s : FactoryState) :
    Except FError Nat × FactoryState × List Event :=
  match env.readEntireFile n with
  | none => (.error .hrFail, s, [Event.findShader n, Event.readFile n])
  | some data =>
    match env.devCreatePixelShader data with
    | none =>
      (.error .hrFail, s, [Event.findShader n, Event.readFile n, Event.callCreatePS])
    | some ps =>
      if s.mSharing && !n.isEmpty && wasMiss then
        (.ok ps, { s with mShaderCache := s.mShaderCache ++ [(n, ps)] },
         [Event.findShader n, Event.readFile n, Event.callCreatePS,
          Event.lock, Event.insertShader n, Event.unlock])
      else
        (.ok ps, s, [Event.findShader n, Event.readFile n, Event.callCreatePS])

/-- Lines 320-351. -/
def CreatePixelShader (env : Env) (name : Option (List Char)) (outValid : Bool)
    (s : FactoryState) : Except FError Nat × FactoryState × List Event :=
  match name with
  | none => (.error .invalidArgs, s, [])
  | some n =>
    if outValid then
      match List.lookup n s.mShaderCache with
      | some ps =>
        if s.mSharing then (.ok ps, s, [Event.findShader n])
        else shaderMiss env n false s
      | none => shaderMiss env n true s
    else (.error .invalidArgs, s, [])

/-! ### `DGSLEffectFactory::Impl::CreateEffect` (lines 72-127) -/

/-- `x != 0 || y != 0 || z != 0` on an `XMFLOAT3`. -/
def isNonzero3 (c : XMFLOAT3) : Bool :=
  c.x != 0 || c.y != 0 || c.z != 0

/-- The find at line 75 / 133: performed only when `info.name && *info.name`. -/
def effectCacheHit (name : Option (List Char)) (s : FactoryState) :
    Option DGSLEffect :=
  match nonEmptyName name with
  | some n => List.lookup n s.mEffectCache
  | none => none

/-- The conditional insert at lines 119-123 / 255-259:
`mSharing && info.name && *info.name && it == mEffectCache.end()`, taking the
mutex around `mEffectCache.insert`.  `wasMiss` records the find result. -/
def effectInsert (nameOk : Option (List Char)) (wasMiss : Bool)
    (eff : DGSLEffect) (s : FactoryState) : FactoryState × List Event :=
  match nameOk with
  | some n =>
    if s.mSharing && wasMiss then
      ({ s with mEffectCache := s.mEffectCache ++ [(n, eff)] },
       [Event.lock, Event.insertEffect n, Event.unlock])
    else (s, [])
  | none => (s, [])

/-- The setter block of `CreateEffect` (lines 85-107): enable default
lighting, set ambient, diffuse and alpha, set specular only when some
component is nonzero, and emissive only when some component is nonzero. -/
def configureBase (info : EffectInfo) (e0 : DGSLEffect) : DGSLEffect :=
  let e1 := { e0 with defaultLighting := true, lightingEnabled := true,
                      ambientColor := info.ambientColor,
                      diffuseColor := info.diffuseColor,
                      alpha := info.alpha }
  let e2 := if isNonzero3 info.specularColor then
              { e1 with specular := some (info.specularColor, info.specularPower) }
            else e1
  if isNonzero3 info.emissiveColor then
    { e2 with emissive := some info.emissiveColor }
  else e2

/-- The `else` branch of `CreateEffect` (lines 81-126): construct a fresh
`DGSLEffect`, configure it from `info`, load the texture when requested, and
conditionally insert into the effect cache. -/
def createEffectMiss (env : Env) (dctx : Bool) (info : EffectInfo)
    (nameOk : Option (List Char)) (wasMiss : Bool) (s : FactoryState)
    (trFind : List Event) :
    Except FError DGSLEffect × FactoryState × List Event :=
  let e3 := configureBase info (mkDGSLEffect s.nextEffectId none)
  let s1 := { s with nextEffectId := s.nextEffectId + 1 }
  match nonEmptyName info.texture with
  | some t =>
    match CreateTexture env dctx (some t) true s1 with
    | (.error err, s2, trT) => (.error err, s2, trFind ++ trT)
    | (.ok srv, s2, trT) =>
      let e4 := { e3 with textureSlots := e3.textureSlots.set 0 (some srv),
                          textureEnabled := true }
      let ins := effectInsert nameOk wasMiss e4 s2
      (.ok e4, ins.1, trFind ++ trT ++ ins.2)
  | none =>
    let ins := effectInsert nameOk wasMiss e3 s1
    (.ok e3, ins.1, trFind ++ ins.2)

/-- Lines 72-127: cache hit under sharing returns the cached instance;
otherwise build and configure a new effect. -/
def CreateEffect (env : Env) (dctx : Bool) (info : EffectInfo)
    (s : FactoryState) : Except FError DGSLEffect × FactoryState × List Event :=
  let nameOk := nonEmptyName info.name
  let trFind : List Event :=
    match nameOk with
    | some n => [Event.findEffect n]
    | none => []
  match effectCacheHit info.name s with
  | some cached =>
    if s.mSharing then (.ok cached, s, trFind)
    else createEffectMiss env dctx info nameOk false s trFind
  | none => createEffectMiss env dctx info nameOk true s trFind

/-! ### `DGSLEffectFactory::Impl::CreateDGSLEffect` (lines 130-263) -/

/-- The pixel-shader selection block (lines 141-199).  Returns the
constructor pixel shader, the `lighting` flag and the `allowSpecular` flag.
A null or empty `pixelShader` constructs a plain effect; otherwise the root
of the name selects the variant, and an unknown root loads the shader via
`CreatePixelShader` — the fallback `root + ".cso"` below feature level 10.0,
the full name otherwise. -/
def selectShader (env : Env) (psName : Option (List Char)) (s : FactoryState) :
    Except FError (Option Nat × Bool × Bool) × FactoryState × List Event :=
  match nonEmptyName psName with
  | none => (.ok (none, true, true), s, [])
  | some p =>
    let root := shaderRoot p
    if wcsicmpEq root lambertName then (.ok (none, true, false), s, [])
    else if wcsicmpEq root phongName then (.ok (none, true, true), s, [])
    else if wcsicmpEq root unlitName then (.ok (none, false, true), s, [])
    else if env.featureLevel < D3D_FEATURE_LEVEL_10_0 then
      match CreatePixelShader env (some (root ++ csoExt)) true s with
      | (.error err, s1, tr) => (.error err, s1, tr)
      | (.ok ps, s1, tr) => (.ok (some ps, true, true), s1, tr)
    else
      match CreatePixelShader env (some p) true s with
      | (.error err, s1, tr) => (.error err, s1, tr)
      | (.ok ps, s1, tr) => (.ok (some ps, true, true), s1, tr)

/-- The loop at lines 242-253: for `j = 0..6`, load `info.textures[j]` when
non-null and non-empty into slot `j+1` and enable texturing. -/
def loadExtraSlots (env : Env) (dctx : Bool) :
    List (Nat × Option (List Char)) → DGSLEffect → FactoryState →
    Except FError DGSLEffect × FactoryState × List Event
  | [], e, s => (.ok e, s, [])
  | (j, t) :: rest, e, s =>
    match nonEmptyName t with
    | none => loadExtraSlots env dctx rest e s
    | some tn =>
      match CreateTexture env dctx (some tn) true s with
      | (.error err, s1, tr) => (.error err, s1, tr)
      | (.ok srv, s1, tr) =>
        let e1 := { e with textureSlots := e.textureSlots.set (j + 1) (some srv),
                           textureEnabled := true }
        let res := loadExtraSlots env dctx rest e1 s1
        (res.1, res.2.1, tr ++ res.2.2)

/-- The indexed slot names `(j, info.textures[j])` for `j = 0..6`. -/
def slotList (info : DGSLEffectInfo) : List (Nat × Option (List Char)) :=
  (List.range 7).map (fun j => (j, info.textures.getD j none))

/-- The primary-texture block at lines 232-240. -/
def loadPrimaryTexture (env : Env) (dctx : Bool) (texture : Option (List Char))
    (e : DGSLEffect) (s : FactoryState) :
    Except FError DGSLEffect × FactoryState × List Event :=
  match nonEmptyName texture with
  | some t =>
    match CreateTexture env dctx (some t) true s with
    | (.error err, s1, tr) => (.error err, s1, tr)
    | (.ok srv, s1, tr) =>
      (.ok { e with textureSlots := e.textureSlots.set 0 (some srv),
                    textureEnabled := true }, s1, tr)
  | none => (.ok e, s, [])

/-- The setter block of `CreateDGSLEffect` (lines 201-230): default lighting
only when `lighting`; ambient, diffuse and alpha always; specular set when
allowed and some component is nonzero, `DisableSpecular` otherwise; emissive
only when some component is nonzero. -/
def configureDGSL (info : DGSLEffectInfo) (lighting allowSpecular : Bool)
    (e0 : DGSLEffect) : DGSLEffect :=
  let e1 := if lighting then
              { e0 with defaultLighting := true, lightingEnabled := true }
            else e0
  let e2 := { e1 with ambientColor := info.ambientColor,
                      diffuseColor := info.diffuseColor, alpha := info.alpha }
  let e3 := if allowSpecular && isNonzero3 info.specularColor then
              { e2 with specular := some (info.specularColor, info.specularPower) }
            else { e2 with specularDisabled := true }
  if isNonzero3 info.emissiveColor then
    { e3 with emissive := some info.emissiveColor }
  else e3

/-- The `else` branch of `CreateDGSLEffect` (lines 139-262): select the
shader variant, construct and configure the effect (with `DisableSpecular`
when specular is absent or disallowed), load the primary texture and the
seven extra slots, and conditionally insert into the effect cache. -/
def createDGSLEffectMiss (env : Env) (dctx : Bool) (info : DGSLEffectInfo)
    (nameOk : Option (List Char)) (wasMiss : Bool) (s : FactoryState)
    (trFind : List Event) :
    Except FError DGSLEffect × FactoryState × List Event :=
  match selectShader env info.pixelShader s with
  | (.error err, s1, trS) => (.error err, s1, trFind ++ trS)
  | (.ok (ps, lighting, allowSpecular), s1, trS) =>
    let e4 := configureDGSL info lighting allowSpecular
      (mkDGSLEffect s1.nextEffectId ps)
    let s2 := { s1 with nextEffectId := s1.nextEffectId + 1 }
    match loadPrimaryTexture env dctx info.texture e4 s2 with
    | (.error err, s3, trT) => (.error err, s3, trFind ++ trS ++ trT)
    | (.ok e5, s3, trT) =>
      match loadExtraSlots env dctx (slotList info) e5 s3 with
      | (.error err, s4, trL) => (.error err, s4, trFind ++ trS ++ trT ++ trL)
      | (.ok e6, s4, trL) =>
        let ins := effectInsert nameOk wasMiss e6 s4
        (.ok e6, ins.1, trFind ++ trS ++ trT ++ trL ++ ins.2)

/-- Lines 130-263. -/
def CreateDGSLEffect (env : Env) (dctx : Bool) (info : DGSLEffectInfo)
    (s : FactoryState) : Except FError DGSLEffect × FactoryState × List Event :=
  let nameOk := nonEmptyName info.name
  let trFind : List Event :=
    match nameOk with
    | some n => [Event.findEffect n]
    | none => []
  match effectCacheHit info.name s with
  | some cached =>
    if s.mSharing then (.ok cached, s, trFind)
    else createDGSLEffectMiss env dctx info nameOk false s trFind
  | none => createDGSLEffectMiss env dctx info nameOk true s trFind

/-! ### `ReleaseCache` (lines 354-360) and `SetSharing` (line 48) -/

/-- Lines 354-360: clear all three caches under the mutex. -/
def ReleaseCache (s : FactoryState) : FactoryState × List Event :=
  ({ s with mEffectCache := [], mTextureCache := [], mShaderCache := [] },
   [Event.lock, Event.clearCaches, Event.unlock])

/-- Line 48: `mSharing = enabled` (no lock is taken). -/
def SetSharing (enabled : Bool) (s : FactoryState) : FactoryState × List Event :=
  ({ s with mSharing := enabled }, [])

/-! ### The per-device instance pool (lines 33-34, 64-69, 368-371)

`DGSLEffectFactory`'s constructor obtains its `Impl` from
`Impl::instancePool.DemandCreate(device)`. -/

/-- Modelled from the spec: `SharedResourcePool<ID3D11Device*, Impl>` and its
`DemandCreate` member live in `SharedResourcePool.h`, which is not among the
provided sources.  Per the spec ("a caching layer keyed by device instance")
and the comment at lines 33-34 ("Only one of these helpers is allocated per
D3D device"), the pool maps each device to the one `Impl` allocated for it,
allocating a fresh one on first demand.  Devices and `Impl` objects are
identified by numbers; `fresh` is the allocator for new `Impl` objects. -/
def DemandCreate (pool : List (Nat × Nat)) (fresh : Nat) (dev : Nat) :
    Nat × List (Nat × Nat) × Nat :=
  match List.lookup dev pool with
  | some impl => (impl, pool, fresh)
  | none => (fresh, pool ++ [(dev, fresh)], fresh + 1)

/-- A sequence of `DGSLEffectFactory` constructions (lines 368-371): each
returns the `Impl` its factory is bound to. -/
def constructAll : List Nat → List (Nat × Nat) → Nat →
    List Nat × List (Nat × Nat) × Nat
  | [], pool, fresh => ([], pool, fresh)
  | d :: ds, pool, fresh =>
    let r1 := DemandCreate pool fresh d
    let r2 := constructAll ds r1.2.1 r1.2.2
    (r1.1 :: r2.1, r2.2.1, r2.2.2)

/-! ### Locking discipline -/

/-- A cache mutation: an insert or a clear. -/
def isMutation : Event → Bool
  | Event.insertEffect _ => true
  | Event.insertTexture _ => true
  | Event.insertShader _ => true
  | Event.clearCaches => true
  | _ => false

/-- Any cache access: a lookup or a mutation. -/
def isCacheAccess : Event → Bool
  | Event.findEffect _ => true
  | Event.findTexture _ => true
  | Event.findShader _ => true
  | e => isMutation e

/-- `lockedFor p d tr`: every event of `tr` satisfying `p` occurs while the
mutex is held (lock depth positive), starting from depth `d`. -/
def lockedFor (p : Event → Bool) : Nat → List Event → Bool
  | _, [] => true
  | d, Event.lock :: r => lockedFor p (d + 1) r
  | d, Event.unlock :: r => lockedFor p (d - 1) r
  | d, e :: r => (!p e || decide (0 < d)) && lockedFor p d r

/-- The lock depth after a trace, starting from `d`. -/
def lockDepth : Nat → List Event → Nat
  | d, [] => d
  | d, Event.lock :: r => lockDepth (d + 1) r
  | d, Event.unlock :: r => lockDepth (d - 1) r
  | d, _ :: r => lockDepth d r

/-! ### Association-list and slot-list helper lemmas -/

theorem lookup_mem {α β : Type} [BEq α] [LawfulBEq α] {k : α}
    {l : List (α × β)} {v : β} (h : List.lookup k l = some v) : (k, v) ∈ l := by
  induction l with
  | nil => simp [List.lookup] at h
  | cons p t ih =>
    obtain ⟨a, b⟩ := p
    rw [List.lookup] at h
    by_cases hk : k == a
    · simp [hk] at h
      subst h
      simp [List.mem_cons]
      left
      have := eq_of_beq hk
      simp [this]
    · simp [hk] at h
      exact List.mem_cons_of_mem _ (ih h)

theorem lookup_append_none {α β : Type} [BEq α] {k : α}
    {l1 : List (α × β)} (l2 : List (α × β)) (h : List.lookup k l1 = none) :
    List.lookup k (l1 ++ l2) = List.lookup k l2 := by
  induction l1 with
  | nil => simp
  | cons p t ih =>
    obtain ⟨a, b⟩ := p
    rw [List.lookup] at h
    rw [List.cons_append, List.lookup]
    by_cases hk : k == a
    · simp [hk] at h
    · simp [hk] at h ⊢
      exact ih h

theorem lookup_append_some {α β : Type} [BEq α] {k : α}
    {l1 : List (α × β)} (l2 : List (α × β)) {v : β}
    (h : List.lookup k l1 = some v) : List.lookup k (l1 ++ l2) = some v := by
  induction l1 with
  | nil => simp [List.lookup] at h
  | cons p t ih =>
    obtain ⟨a, b⟩ := p
    rw [List.lookup] at h
    rw [List.cons_append, List.lookup]
    by_cases hk : k == a
    · simp [hk] at h ⊢
      exact h
    · simp [hk] at h ⊢
      exact ih h

theorem lookup_none_notMem {α β : Type} [BEq α] [LawfulBEq α] {k : α}
    {l : List (α × β)} (h : List.lookup k l = none) : k ∉ l.map Prod.fst := by
  induction l with
  | nil => simp
  | cons p t ih =>
    obtain ⟨a, b⟩ := p
    rw [List.lookup] at h
    by_cases hk : k == a
    · simp [hk] at h
    · have h' : List.lookup k t = none := by simpa [hk] using h
      simp only [List.map_cons, List.mem_cons]
      rintro (hka | hmem)
      · subst hka
        simp at hk
      · exact (ih h') hmem

theorem getD_set_self {α : Type} {l : List (Option α)} {i : Nat}
    {v : Option α} (h : i < l.length) : (l.set i v).getD i none = v := by
  induction l generalizing i with
  | nil => simp at h
  | cons a t ih =>
    cases i with
    | zero => simp [List.set, List.getD]
    | succ m =>
      simp only [List.set, List.getD_cons_succ]
      exact ih (by simpa using h)

theorem getD_set_ne {α : Type} {l : List (Option α)} {i k : Nat}
    {v : Option α} (h : i ≠ k) : (l.set i v).getD k none = l.getD k none := by
  induction l generalizing i k with
  | nil => simp [List.set]
  | cons a t ih =>
    cases i with
    | zero =>
      cases k with
      | zero => exact absurd rfl h
      | succ m => simp [List.set, List.getD]
    | succ n =>
      cases k with
      | zero => simp [List.set, List.getD]
      | succ m =>
        simp only [List.set, List.getD_cons_succ]
        exact ih (by omega)

theorem getD_set_self' {α : Type} {l : List (Option α)} {i : Nat}
    {v : Option α} (h : i < l.length) : ((l.set i v)[i]?).getD none = v := by
  rw [← List.getD_eq_getElem?_getD]
  exact getD_set_self h

theorem getD_set_ne' {α : Type} {l : List (Option α)} {i k : Nat}
    {v : Option α} (h : i ≠ k) : ((l.set i v)[k]?).getD none = l[k]?.getD none := by
  rw [← List.getD_eq_getElem?_getD, ← List.getD_eq_getElem?_getD]
  exact getD_set_ne h

/-! ### Trace composition lemmas -/

theorem lockDepth_append (d : Nat) (xs ys : List Event) :
    lockDepth d (xs ++ ys) = lockDepth (lockDepth d xs) ys := by
  induction xs generalizing d with
  | nil => simp [lockDepth]
  | cons e r ih => cases e <;> simp [lockDepth, ih]

theorem lockedFor_append (p : Event → Bool) (d : Nat) (xs ys : List Event) :
    lockedFor p d (xs ++ ys) =
      (lockedFor p d xs && lockedFor p (lockDepth d xs) ys) := by
  induction xs generalizing d with
  | nil => simp [lockedFor, lockDepth]
  | cons e r ih => cases e <;> simp [lockedFor, lockDepth, ih, Bool.and_assoc]

/-- A well-formed operation trace: all cache mutations occur under the mutex
and the lock is released by the end. -/
def mutLocked (tr : List Event) : Prop :=
  lockedFor isMutation 0 tr = true ∧ lockDepth 0 tr = 0

theorem mutLocked_nil : mutLocked [] :=
  ⟨rfl, rfl⟩

theorem mutLocked_append {xs ys : List Event} (hx : mutLocked xs)
    (hy : mutLocked ys) : mutLocked (xs ++ ys) := by
  obtain ⟨hx1, hx2⟩ := hx
  obtain ⟨hy1, hy2⟩ := hy
  constructor
  · rw [lockedFor_append, hx2, hx1, hy1]
    simp
  · rw [lockDepth_append, hx2, hy2]

/-! ### Frame and specification lemmas for `CreateTexture` / `CreatePixelShader` -/

theorem textureMiss_spec (env : Env) (dctx : Bool) (n : List Char) (w : Bool)
    (s : FactoryState) :
    (∀ err s' tr, textureMiss env dctx n w s = (.error err, s', tr) →
       err = .hrFail ∧ s' = s ∧ tr = Event.findTexture n :: (textureLoad env dctx n).2 ∧
       (textureLoad env dctx n).1 = none)
  ∧ (∀ v s' tr, textureMiss env dctx n w s = (.ok v, s', tr) →
       (textureLoad env dctx n).1 = some v ∧
       s'.mTextureCache = (if s.mSharing && !n.isEmpty && w then
           s.mTextureCache ++ [(n, v)] else s.mTextureCache) ∧
       s' = { s with mTextureCache := s'.mTextureCache } ∧
       tr = Event.findTexture n :: ((textureLoad env dctx n).2 ++
         (if s.mSharing && !n.isEmpty && w then
           [Event.lock, Event.insertTexture n, Event.unlock] else []))) := by
  rcases htl : textureLoad env dctx n with ⟨o, trl⟩
  cases o with
  | none =>
    constructor
    · intro err s' tr h
      simp [textureMiss, htl] at h
      obtain ⟨h1, h2, h3⟩ := h
      exact ⟨h1.symm, h2.symm, by simp [h3.symm], rfl⟩
    · intro v s' tr h
      simp [textureMiss, htl] at h
  | some srv =>
    constructor
    · intro err s' tr h
      by_cases hc : (s.mSharing && !n.isEmpty && w) = true
      · simp [textureMiss, htl, hc] at h
      · simp [textureMiss, htl, hc] at h
    · intro v s' tr h
      by_cases hc : (s.mSharing && !n.isEmpty && w) = true
      · simp [textureMiss, htl, hc] at h ⊢
        obtain ⟨h1, h2, h3⟩ := h
        subst h1 h2 h3
        simp
      · simp [textureMiss, htl, hc] at h ⊢
        obtain ⟨h1, h2, h3⟩ := h
        subst h1 h2 h3
        simp

theorem textureMiss_frame (env : Env) (dctx : Bool) (n : List Char) (w : Bool)
    (s : FactoryState) :
    (textureMiss env dctx n w s).2.1.mEffectCache = s.mEffectCache ∧
    (textureMiss env dctx n w s).2.1.mShaderCache = s.mShaderCache ∧
    (textureMiss env dctx n w s).2.1.mSharing = s.mSharing ∧
    (textureMiss env dctx n w s).2.1.nextEffectId = s.nextEffectId ∧
    (textureMiss env dctx n w s).2.1.device = s.device := by
  rcases htl : textureLoad env dctx n with ⟨o, trl⟩
  cases o with
  | none => simp [textureMiss, htl]
  | some srv =>
    by_cases hc : (s.mSharing && !n.isEmpty && w) = true <;>
      simp [textureMiss, htl, hc]

theorem CreateTexture_frame (env : Env) (dctx : Bool) (name : Option (List Char))
    (ov : Bool) (s : FactoryState) :
    (CreateTexture env dctx name ov s).2.1.mEffectCache = s.mEffectCache ∧
    (CreateTexture env dctx name ov s).2.1.mShaderCache = s.mShaderCache ∧
    (CreateTexture env dctx name ov s).2.1.mSharing = s.mSharing ∧
    (CreateTexture env dctx name ov s).2.1.nextEffectId = s.nextEffectId ∧
    (CreateTexture env dctx name ov s).2.1.device = s.device := by
  cases name with
  | none => simp [CreateTexture]
  | some n =>
    cases ov with
    | false => simp [CreateTexture]
    | true =>
      cases hl : List.lookup n s.mTextureCache with
      | none => simpa [CreateTexture, hl] using textureMiss_frame env dctx n true s
      | some v =>
        cases hs : s.mSharing with
        | true => simp [CreateTexture, hl, hs]
        | false => simpa [CreateTexture, hl, hs] using textureMiss_frame env dctx n false s

theorem textureLoad_mutLocked (env : Env) (dctx : Bool) (n : List Char) :
    mutLocked (textureLoad env dctx n).2 := by
  unfold textureLoad
  by_cases h1 : wcsicmpEq (fileExt n) dot_dds = true
  · simp [h1]
    exact ⟨rfl, rfl⟩
  · cases dctx <;> simp [h1] <;> exact ⟨rfl, rfl⟩

theorem textureMiss_mutLocked (env : Env) (dctx : Bool) (n : List Char)
    (w : Bool) (s : FactoryState) :
    mutLocked (textureMiss env dctx n w s).2.2 := by
  have hload := textureLoad_mutLocked env dctx n
  rcases htl : textureLoad env dctx n with ⟨o, trl⟩
  rw [htl] at hload
  cases o with
  | none =>
    simp [textureMiss, htl]
    have : mutLocked [Event.findTexture n] := ⟨rfl, rfl⟩
    exact mutLocked_append this hload
  | some srv =>
    by_cases hc : (s.mSharing && !n.isEmpty && w) = true <;> simp [textureMiss, htl, hc]
    · have h1 : mutLocked [Event.findTexture n] := ⟨rfl, rfl⟩
      have h2 : mutLocked [Event.lock, Event.insertTexture n, Event.unlock] := ⟨rfl, rfl⟩
      exact mutLocked_append (mutLocked_append h1 hload) h2
    · have h1 : mutLocked [Event.findTexture n] := ⟨rfl, rfl⟩
      exact mutLocked_append h1 hload

theorem CreateTexture_mutLocked (env : Env) (dctx : Bool)
    (name : Option (List Char)) (ov : Bool) (s : FactoryState) :
    mutLocked (CreateTexture env dctx name ov s).2.2 := by
  cases name with
  | none => exact ⟨rfl, rfl⟩
  | some n =>
    cases ov with
    | false => exact ⟨rfl, rfl⟩
    | true =>
      cases hl : List.lookup n s.mTextureCache with
      | none => simpa [CreateTexture, hl] using textureMiss_mutLocked env dctx n true s
      | some v =>
        cases hs : s.mSharing with
        | true => simpa [CreateTexture, hl, hs] using (⟨rfl, rfl⟩ : mutLocked [Event.findTexture n])
        | false => simpa [CreateTexture, hl, hs] using textureMiss_mutLocked env dctx n false s

theorem shaderMiss_spec (env : Env) (n : List Char) (w : Bool)
    (s : FactoryState) :
    (∀ err s' tr, shaderMiss env n w s = (.error err, s', tr) →
       err = .hrFail ∧ s' = s)
  ∧ (∀ v s' tr, shaderMiss env n w s = (.ok v, s', tr) →
       (∃ data, env.readEntireFile n = some data ∧
          env.devCreatePixelShader data = some v) ∧
       s'.mShaderCache = (if s.mSharing && !n.isEmpty && w then
           s.mShaderCache ++ [(n, v)] else s.mShaderCache) ∧
       s' = { s with mShaderCache := s'.mShaderCache }) := by
  cases hr : env.readEntireFile n with
  | none =>
    constructor
    · intro err s' tr h
      simp [shaderMiss, hr] at h
      exact ⟨h.1.symm, h.2.1.symm⟩
    · intro v s' tr h
      simp [shaderMiss, hr] at h
  | some data =>
    cases hp : env.devCreatePixelShader data with
    | none =>
      constructor
      · intro err s' tr h
        simp [shaderMiss, hr, hp] at h
        exact ⟨h.1.symm, h.2.1.symm⟩
      · intro v s' tr h
        simp [shaderMiss, hr, hp] at h
    | some ps =>
      constructor
      · intro err s' tr h
        by_cases hc : (s.mSharing && !n.isEmpty && w) = true <;>
          simp [shaderMiss, hr, hp, hc] at h
      · intro v s' tr h
        by_cases hc : (s.mSharing && !n.isEmpty && w) = true
        · simp [shaderMiss, hr, hp, hc] at h
          obtain ⟨h1, h2, h3⟩ := h
          subst h1 h2
          refine ⟨⟨data, rfl, hp⟩, ?_, ?_⟩ <;> simp [hc]
        · simp [shaderMiss, hr, hp, hc] at h
          obtain ⟨h1, h2, h3⟩ := h
          subst h1 h2
          refine ⟨⟨data, rfl, hp⟩, ?_, ?_⟩ <;> simp [hc]

theorem shaderMiss_frame (env : Env) (n : List Char) (w : Bool)
    (s : FactoryState) :
    (shaderMiss env n w s).2.1.mEffectCache = s.mEffectCache ∧
    (shaderMiss env n w s).2.1.mTextureCache = s.mTextureCache ∧
    (shaderMiss env n w s).2.1.mSharing = s.mSharing ∧
    (shaderMiss env n w s).2.1.nextEffectId = s.nextEffectId ∧
    (shaderMiss env n w s).2.1.device = s.device := by
  cases hr : env.readEntireFile n with
  | none => simp [shaderMiss, hr]
  | some data =>
    cases hp : env.devCreatePixelShader data with
    | none => simp [shaderMiss, hr, hp]
    | some ps =>
      by_cases hc : (s.mSharing && !n.isEmpty && w) = true <;>
        simp [shaderMiss, hr, hp, hc]

theorem CreatePixelShader_frame (env : Env) (name : Option (List Char))
    (ov : Bool) (s : FactoryState) :
    (CreatePixelShader env name ov s).2.1.mEffectCache = s.mEffectCache ∧
    (CreatePixelShader env name ov s).2.1.mTextureCache = s.mTextureCache ∧
    (CreatePixelShader env name ov s).2.1.mSharing = s.mSharing ∧
    (CreatePixelShader env name ov s).2.1.nextEffectId = s.nextEffectId ∧
    (CreatePixelShader env name ov s).2.1.device = s.device := by
  cases name with
  | none => simp [CreatePixelShader]
  | some n =>
    cases ov with
    | false => simp [CreatePixelShader]
    | true =>
      cases hl : List.lookup n s.mShaderCache with
      | none => simpa [CreatePixelShader, hl] using shaderMiss_frame env n true s
      | some v =>
        cases hs : s.mSharing with
        | true => simp [CreatePixelShader, hl, hs]
        | false => simpa [CreatePixelShader, hl, hs] using shaderMiss_frame env n false s

theorem shaderMiss_mutLocked (env : Env) (n : List Char) (w : Bool)
    (s : FactoryState) : mutLocked (shaderMiss env n w s).2.2 := by
  cases hr : env.readEntireFile n with
  | none => simp [shaderMiss, hr]; exact ⟨rfl, rfl⟩
  | some data =>
    cases hp : env.devCreatePixelShader data with
    | none => simp [shaderMiss, hr, hp]; exact ⟨rfl, rfl⟩
    | some ps =>
      by_cases hc : (s.mSharing && !n.isEmpty && w) = true <;>
        simp [shaderMiss, hr, hp, hc] <;> exact ⟨rfl, rfl⟩

theorem CreatePixelShader_mutLocked (env : Env) (name : Option (List Char))
    (ov : Bool) (s : FactoryState) :
    mutLocked (CreatePixelShader env name ov s).2.2 := by
  cases name with
  | none => exact ⟨rfl, rfl⟩
  | some n =>
    cases ov with
    | false => exact ⟨rfl, rfl⟩
    | true =>
      cases hl : List.lookup n s.mShaderCache with
      | none => simpa [CreatePixelShader, hl] using shaderMiss_mutLocked env n true s
      | some v =>
        cases hs : s.mSharing with
        | true => simpa [CreatePixelShader, hl, hs] using (⟨rfl, rfl⟩ : mutLocked [Event.findShader n])
        | false => simpa [CreatePixelShader, hl, hs] using shaderMiss_mutLocked env n false s

/-! ### Frame and lock lemmas for the effect-construction helpers -/

theorem selectShader_frame (env : Env) (psName : Option (List Char))
    (s : FactoryState) :
    (selectShader env psName s).2.1.mEffectCache = s.mEffectCache ∧
    (selectShader env psName s).2.1.mTextureCache = s.mTextureCache ∧
    (selectShader env psName s).2.1.mSharing = s.mSharing ∧
    (selectShader env psName s).2.1.nextEffectId = s.nextEffectId ∧
    (selectShader env psName s).2.1.device = s.device := by
  cases hn : nonEmptyName psName with
  | none => simp [selectShader, hn]
  | some p =>
    by_cases h1 : wcsicmpEq (shaderRoot p) lambertName = true
    · simp [selectShader, hn, h1]
    by_cases h2 : wcsicmpEq (shaderRoot p) phongName = true
    · simp [selectShader, hn, h1, h2]
    by_cases h3 : wcsicmpEq (shaderRoot p) unlitName = true
    · simp [selectShader, hn, h1, h2, h3]
    by_cases h4 : env.featureLevel < D3D_FEATURE_LEVEL_10_0
    · have hf := CreatePixelShader_frame env (some (shaderRoot p ++ csoExt)) true s
      rcases hcp : CreatePixelShader env (some (shaderRoot p ++ csoExt)) true s with ⟨r, s1, tr⟩
      rw [hcp] at hf
      cases r <;> simp [selectShader, hn, h1, h2, h3, h4, hcp] <;> exact hf
    · have hf := CreatePixelShader_frame env (some p) true s
      rcases hcp : CreatePixelShader env (some p) true s with ⟨r, s1, tr⟩
      rw [hcp] at hf
      cases r <;> simp [selectShader, hn, h1, h2, h3, h4, hcp] <;> exact hf

theorem selectShader_mutLocked (env : Env) (psName : Option (List Char))
    (s : FactoryState) : mutLocked (selectShader env psName s).2.2 := by
  cases hn : nonEmptyName psName with
  | none => simp [selectShader, hn]; exact mutLocked_nil
  | some p =>
    by_cases h1 : wcsicmpEq (shaderRoot p) lambertName = true
    · simp [selectShader, hn, h1]; exact mutLocked_nil
    by_cases h2 : wcsicmpEq (shaderRoot p) phongName = true
    · simp [selectShader, hn, h1, h2]; exact mutLocked_nil
    by_cases h3 : wcsicmpEq (shaderRoot p) unlitName = true
    · simp [selectShader, hn, h1, h2, h3]; exact mutLocked_nil
    by_cases h4 : env.featureLevel < D3D_FEATURE_LEVEL_10_0
    · have hm := CreatePixelShader_mutLocked env (some (shaderRoot p ++ csoExt)) true s
      rcases hcp : CreatePixelShader env (some (shaderRoot p ++ csoExt)) true s with ⟨r, s1, tr⟩
      rw [hcp] at hm
      cases r <;> simp [selectShader, hn, h1, h2, h3, h4, hcp] <;> exact hm
    · have hm := CreatePixelShader_mutLocked env (some p) true s
      rcases hcp : CreatePixelShader env (some p) true s with ⟨r, s1, tr⟩
      rw [hcp] at hm
      cases r <;> simp [selectShader, hn, h1, h2, h3, h4, hcp] <;> exact hm

theorem loadPrimaryTexture_frame (env : Env) (dctx : Bool)
    (texture : Option (List Char)) (e : DGSLEffect) (s : FactoryState) :
    (loadPrimaryTexture env dctx texture e s).2.1.mEffectCache = s.mEffectCache ∧
    (loadPrimaryTexture env dctx texture e s).2.1.mShaderCache = s.mShaderCache ∧
    (loadPrimaryTexture env dctx texture e s).2.1.mSharing = s.mSharing ∧
    (loadPrimaryTexture env dctx texture e s).2.1.nextEffectId = s.nextEffectId ∧
    (loadPrimaryTexture env dctx texture e s).2.1.device = s.device := by
  cases htx : nonEmptyName texture with
  | none => simp [loadPrimaryTexture, htx]
  | some t =>
    have hf := CreateTexture_frame env dctx (some t) true s
    rcases hct : CreateTexture env dctx (some t) true s with ⟨r, s1, tr⟩
    rw [hct] at hf
    cases r <;> simp [loadPrimaryTexture, htx, hct] <;> exact hf

theorem loadPrimaryTexture_mutLocked (env : Env) (dctx : Bool)
    (texture : Option (List Char)) (e : DGSLEffect) (s : FactoryState) :
    mutLocked (loadPrimaryTexture env dctx texture e s).2.2 := by
  cases htx : nonEmptyName texture with
  | none => simp [loadPrimaryTexture, htx]; exact mutLocked_nil
  | some t =>
    have hm := CreateTexture_mutLocked env dctx (some t) true s
    rcases hct : CreateTexture env dctx (some t) true s with ⟨r, s1, tr⟩
    rw [hct] at hm
    cases r <;> simp [loadPrimaryTexture, htx, hct] <;> exact hm

theorem loadExtraSlots_frame (env : Env) (dctx : Bool) :
    ∀ (slots : List (Nat × Option (List Char))) (e : DGSLEffect)
      (s : FactoryState),
    (loadExtraSlots env dctx slots e s).2.1.mEffectCache = s.mEffectCache ∧
    (loadExtraSlots env dctx slots e s).2.1.mShaderCache = s.mShaderCache ∧
    (loadExtraSlots env dctx slots e s).2.1.mSharing = s.mSharing ∧
    (loadExtraSlots env dctx slots e s).2.1.nextEffectId = s.nextEffectId ∧
    (loadExtraSlots env dctx slots e s).2.1.device = s.device := by
  intro slots
  induction slots with
  | nil => intro e s; simp [loadExtraSlots]
  | cons p rest ih =>
    intro e s
    obtain ⟨j, t⟩ := p
    cases hnt : nonEmptyName t with
    | none => simpa [loadExtraSlots, hnt] using ih e s
    | some tn =>
      have hf := CreateTexture_frame env dctx (some tn) true s
      rcases hct : CreateTexture env dctx (some tn) true s with ⟨r, s1, tr⟩
      rw [hct] at hf
      cases r with
      | error err => simp [loadExtraSlots, hnt, hct]; exact hf
      | ok srv =>
        have hr := ih { e with
          textureSlots := e.textureSlots.set (j + 1) (some srv),
          textureEnabled := true } s1
        rcases hrec : loadExtraSlots env dctx rest { e with
          textureSlots := e.textureSlots.set (j + 1) (some srv),
          textureEnabled := true } s1 with ⟨r2, s2, tr2⟩
        rw [hrec] at hr
        simp [loadExtraSlots, hnt, hct, hrec]
        exact ⟨hr.1.trans hf.1, hr.2.1.trans hf.2.1, hr.2.2.1.trans hf.2.2.1,
               hr.2.2.2.1.trans hf.2.2.2.1, hr.2.2.2.2.trans hf.2.2.2.2⟩

theorem loadExtraSlots_mutLocked (env : Env) (dctx : Bool) :
    ∀ (slots : List (Nat × Option (List Char))) (e : DGSLEffect)
      (s : FactoryState),
    mutLocked (loadExtraSlots env dctx slots e s).2.2 := by
  intro slots
  induction slots with
  | nil => intro e s; exact ⟨rfl, rfl⟩
  | cons p rest ih =>
    intro e s
    obtain ⟨j, t⟩ := p
    cases hnt : nonEmptyName t with
    | none => simpa [loadExtraSlots, hnt] using ih e s
    | some tn =>
      have hm := CreateTexture_mutLocked env dctx (some tn) true s
      rcases hct : CreateTexture env dctx (some tn) true s with ⟨r, s1, tr⟩
      rw [hct] at hm
      cases r with
      | error err => simpa [loadExtraSlots, hnt, hct] using hm
      | ok srv =>
        have hr := ih { e with
          textureSlots := e.textureSlots.set (j + 1) (some srv),
          textureEnabled := true } s1
        rcases hrec : loadExtraSlots env dctx rest { e with
          textureSlots := e.textureSlots.set (j + 1) (some srv),
          textureEnabled := true } s1 with ⟨r2, s2, tr2⟩
        rw [hrec] at hr
        simp [loadExtraSlots, hnt, hct, hrec]
        exact mutLocked_append hm hr

theorem effectInsert_spec (nameOk : Option (List Char)) (wasMiss : Bool)
    (eff : DGSLEffect) (s : FactoryState) :
    (effectInsert nameOk wasMiss eff s).1.mEffectCache =
      (match nameOk with
       | some n => if s.mSharing && wasMiss then s.mEffectCache ++ [(n, eff)]
                   else s.mEffectCache
       | none => s.mEffectCache) ∧
    (effectInsert nameOk wasMiss eff s).1.mTextureCache = s.mTextureCache ∧
    (effectInsert nameOk wasMiss eff s).1.mShaderCache = s.mShaderCache ∧
    (effectInsert nameOk wasMiss eff s).1.mSharing = s.mSharing ∧
    (effectInsert nameOk wasMiss eff s).1.nextEffectId = s.nextEffectId ∧
    (effectInsert nameOk wasMiss eff s).1.device = s.device ∧
    mutLocked (effectInsert nameOk wasMiss eff s).2 := by
  cases nameOk with
  | none => exact ⟨rfl, rfl, rfl, rfl, rfl, rfl, rfl, rfl⟩
  | some n =>
    by_cases hc : (s.mSharing && wasMiss) = true <;>
      simp [effectInsert, hc] <;> exact ⟨rfl, rfl⟩

/-! ### Result characterization for the texture-slot helpers -/

/-- Fields of a `DGSLEffect` untouched by texture loading. -/
def sameCoreFields (e' e : DGSLEffect) : Prop :=
  e'.id = e.id ∧ e'.ctorPixelShader = e.ctorPixelShader ∧
  e'.defaultLighting = e.defaultLighting ∧ e'.lightingEnabled = e.lightingEnabled ∧
  e'.ambientColor = e.ambientColor ∧ e'.diffuseColor = e.diffuseColor ∧
  e'.alpha = e.alpha ∧ e'.specular = e.specular ∧
  e'.specularDisabled = e.specularDisabled ∧ e'.emissive = e.emissive

theorem loadPrimaryTexture_ok (env : Env) (dctx : Bool)
    (texture : Option (List Char)) (e : DGSLEffect) (s : FactoryState)
    (e' : DGSLEffect) (s' : FactoryState) (tr : List Event)
    (h : loadPrimaryTexture env dctx texture e s = (.ok e', s', tr)) :
    sameCoreFields e' e ∧
    e'.textureSlots.length = e.textureSlots.length ∧
    (0 < e.textureSlots.length →
      (e'.textureSlots.getD 0 none).isSome =
        ((e.textureSlots.getD 0 none).isSome || (nonEmptyName texture).isSome)) ∧
    (∀ k, k ≠ 0 → e'.textureSlots.getD k none = e.textureSlots.getD k none) ∧
    e'.textureEnabled = (e.textureEnabled || (nonEmptyName texture).isSome) := by
  cases htx : nonEmptyName texture with
  | none =>
    simp [loadPrimaryTexture, htx] at h
    obtain ⟨h1, h2, h3⟩ := h
    subst h1
    simp [sameCoreFields]
  | some t =>
    rcases hct : CreateTexture env dctx (some t) true s with ⟨r, s1, trT⟩
    cases r with
    | error err => simp [loadPrimaryTexture, htx, hct] at h
    | ok srv =>
      simp [loadPrimaryTexture, htx, hct] at h
      obtain ⟨h1, h2, h3⟩ := h
      subst h1
      refine ⟨by simp [sameCoreFields], by simp, ?_, ?_, by simp⟩
      · intro hlen
        simp [getD_set_self' hlen]
      · intro k hk
        simp [getD_set_ne' (Ne.symm hk)]

theorem loadExtraSlots_ok (env : Env) (dctx : Bool) :
    ∀ (slots : List (Nat × Option (List Char))) (e : DGSLEffect)
      (s : FactoryState) (e' : DGSLEffect) (s' : FactoryState) (tr : List Event),
    loadExtraSlots env dctx slots e s = (.ok e', s', tr) →
    (∀ p ∈ slots, p.1 + 1 < e.textureSlots.length) →
    sameCoreFields e' e ∧
    e'.textureSlots.length = e.textureSlots.length ∧
    (∀ k, (e'.textureSlots.getD k none).isSome =
       ((e.textureSlots.getD k none).isSome ||
        slots.any (fun p => p.1 + 1 == k && (nonEmptyName p.2).isSome))) ∧
    e'.textureEnabled =
      (e.textureEnabled || slots.any (fun p => (nonEmptyName p.2).isSome)) := by
  intro slots
  induction slots with
  | nil =>
    intro e s e' s' tr h hb
    simp [loadExtraSlots] at h
    obtain ⟨h1, h2, h3⟩ := h
    subst h1
    simp [sameCoreFields]
  | cons p rest ih =>
    intro e s e' s' tr h hb
    obtain ⟨j, t⟩ := p
    cases hnt : nonEmptyName t with
    | none =>
      rw [loadExtraSlots, hnt] at h
      have := ih e s e' s' tr h (fun q hq => hb q (List.mem_cons_of_mem _ hq))
      simpa [hnt] using this
    | some tn =>
      rw [loadExtraSlots] at h
      simp only [hnt] at h
      rcases hct : CreateTexture env dctx (some tn) true s with ⟨r, s1, trC⟩
      simp only [hct] at h
      cases r with
      | error err => simp at h
      | ok srv =>
        simp only at h
        rcases hrec : loadExtraSlots env dctx rest { e with
          textureSlots := e.textureSlots.set (j + 1) (some srv),
          textureEnabled := true } s1 with ⟨r2, s2, tr2⟩
        simp only [hrec] at h
        cases r2 with
        | error err2 => simp at h
        | ok e2 =>
          simp at h
          obtain ⟨he2, hs2, htr⟩ := h
          subst he2
          have hj : j + 1 < e.textureSlots.length := hb (j, t) (List.mem_cons_self _ _)
          have hbrest : ∀ q ∈ rest, q.1 + 1 <
              ({ e with textureSlots := e.textureSlots.set (j + 1) (some srv),
                        textureEnabled := true } : DGSLEffect).textureSlots.length := by
            intro q hq
            simpa using hb q (List.mem_cons_of_mem _ hq)
          obtain ⟨hcore, hlen, hslots, hen⟩ := ih _ s1 _ s2 tr2 hrec hbrest
          refine ⟨?_, ?_, ?_, ?_⟩
          · simpa [sameCoreFields] using hcore
          · simpa using hlen
          · intro k
            rw [hslots k]
            by_cases hk : j + 1 = k
            · subst hk
              simp [getD_set_self' hj, hnt]
            · have hbk : (j + 1 == k) = false := by simp [hk]
              simp [getD_set_ne' hk, hbk]
          · rw [hen]
            simp [hnt]

/-! ### Field lemmas for the setter blocks -/

theorem configureBase_fields (info : EffectInfo) (e0 : DGSLEffect) :
    (configureBase info e0).id = e0.id ∧
    (configureBase info e0).ctorPixelShader = e0.ctorPixelShader ∧
    (configureBase info e0).defaultLighting = true ∧
    (configureBase info e0).lightingEnabled = true ∧
    (configureBase info e0).ambientColor = info.ambientColor ∧
    (configureBase info e0).diffuseColor = info.diffuseColor ∧
    (configureBase info e0).alpha = info.alpha ∧
    (configureBase info e0).specular = (if isNonzero3 info.specularColor then
       some (info.specularColor, info.specularPower) else e0.specular) ∧
    (configureBase info e0).specularDisabled = e0.specularDisabled ∧
    (configureBase info e0).emissive = (if isNonzero3 info.emissiveColor then
       some info.emissiveColor else e0.emissive) ∧
    (configureBase info e0).textureSlots = e0.textureSlots ∧
    (configureBase info e0).textureEnabled = e0.textureEnabled := by
  by_cases hsp : isNonzero3 info.specularColor = true <;>
    by_cases hem : isNonzero3 info.emissiveColor = true <;>
    simp [configureBase, hsp, hem]

theorem configureDGSL_fields (info : DGSLEffectInfo)
    (lighting allowSpecular : Bool) (e0 : DGSLEffect) :
    (configureDGSL info lighting allowSpecular e0).id = e0.id ∧
    (configureDGSL info lighting allowSpecular e0).ctorPixelShader = e0.ctorPixelShader ∧
    (configureDGSL info lighting allowSpecular e0).defaultLighting =
      (if lighting then true else e0.defaultLighting) ∧
    (configureDGSL info lighting allowSpecular e0).lightingEnabled =
      (if lighting then true else e0.lightingEnabled) ∧
    (configureDGSL info lighting allowSpecular e0).ambientColor = info.ambientColor ∧
    (configureDGSL info lighting allowSpecular e0).diffuseColor = info.diffuseColor ∧
    (configureDGSL info lighting allowSpecular e0).alpha = info.alpha ∧
    (configureDGSL info lighting allowSpecular e0).specular =
      (if allowSpecular && isNonzero3 info.specularColor then
         some (info.specularColor, info.specularPower) else e0.specular) ∧
    (configureDGSL info lighting allowSpecular e0).specularDisabled =
      (if allowSpecular && isNonzero3 info.specularColor then
         e0.specularDisabled else true) ∧
    (configureDGSL info lighting allowSpecular e0).emissive =
      (if isNonzero3 info.emissiveColor then some info.emissiveColor
       else e0.emissive) ∧
    (configureDGSL info lighting allowSpecular e0).textureSlots = e0.textureSlots ∧
    (configureDGSL info lighting allowSpecular e0).textureEnabled = e0.textureEnabled := by
  by_cases hsp : (allowSpecular && isNonzero3 info.specularColor) = true <;>
    by_cases hem : isNonzero3 info.emissiveColor = true <;>
    cases lighting <;>
    simp [configureDGSL, hsp, hem]

/-! ### Result characterization for `CreateEffect` -/

theorem createEffectMiss_spec (env : Env) (dctx : Bool) (info : EffectInfo)
    (nameOk : Option (List Char)) (wasMiss : Bool) (s : FactoryState)
    (trFind : List Event) :
    (∀ err s' tr,
       createEffectMiss env dctx info nameOk wasMiss s trFind = (.error err, s', tr) →
       s'.mEffectCache = s.mEffectCache ∧ s'.mShaderCache = s.mShaderCache ∧
       s'.mSharing = s.mSharing ∧ s'.device = s.device)
  ∧ (∀ e s' tr,
       createEffectMiss env dctx info nameOk wasMiss s trFind = (.ok e, s', tr) →
       e.id = s.nextEffectId ∧ e.ctorPixelShader = none ∧
       e.defaultLighting = true ∧ e.lightingEnabled = true ∧
       e.ambientColor = info.ambientColor ∧ e.diffuseColor = info.diffuseColor ∧
       e.alpha = info.alpha ∧
       e.specular = (if isNonzero3 info.specularColor then
         some (info.specularColor, info.specularPower) else none) ∧
       e.specularDisabled = false ∧
       e.emissive = (if isNonzero3 info.emissiveColor then
         some info.emissiveColor else none) ∧
       e.textureEnabled = (nonEmptyName info.texture).isSome ∧
       (e.textureSlots.getD 0 none).isSome = (nonEmptyName info.texture).isSome ∧
       s'.nextEffectId = s.nextEffectId + 1 ∧ s'.mSharing = s.mSharing ∧
       s'.device = s.device ∧ s'.mShaderCache = s.mShaderCache ∧
       s'.mEffectCache = (match nameOk with
         | some n => if s.mSharing && wasMiss then s.mEffectCache ++ [(n, e)]
                     else s.mEffectCache
         | none => s.mEffectCache)) := by
  have hcb := configureBase_fields info (mkDGSLEffect s.nextEffectId none)
  constructor
  · intro err s' tr h
    rw [createEffectMiss] at h
    cases htx : nonEmptyName info.texture with
    | none => simp [htx] at h
    | some t =>
      simp only [htx] at h
      rcases hct : CreateTexture env dctx (some t) true
          { s with nextEffectId := s.nextEffectId + 1 } with ⟨r, s2, trT⟩
      simp only [hct] at h
      cases r with
      | ok srv => simp at h
      | error err2 =>
        simp at h
        obtain ⟨herr, hs, htr⟩ := h
        subst hs
        have hf := CreateTexture_frame env dctx (some t) true
          { s with nextEffectId := s.nextEffectId + 1 }
        rw [hct] at hf
        simp at hf
        exact ⟨hf.1, hf.2.1, hf.2.2.1, hf.2.2.2.2⟩
  · intro e s' tr h
    rw [createEffectMiss] at h
    cases htx : nonEmptyName info.texture with
    | none =>
      simp only [htx] at h
      simp at h
      obtain ⟨he, hs', htr⟩ := h
      have hins := effectInsert_spec nameOk wasMiss
        (configureBase info (mkDGSLEffect s.nextEffectId none))
        { s with nextEffectId := s.nextEffectId + 1 }
      rw [hs'] at hins
      subst he
      obtain ⟨hi1, hi2, hi3, hi4, hi5, hi6, hi7⟩ := hins
      simp at hi1 hi4 hi5 hi6
      refine ⟨hcb.1, hcb.2.1, hcb.2.2.1, hcb.2.2.2.1, hcb.2.2.2.2.1,
              hcb.2.2.2.2.2.1, hcb.2.2.2.2.2.2.1, ?_, ?_, ?_, ?_, ?_,
              hi5, hi4, hi6, hi3, ?_⟩
      · rw [hcb.2.2.2.2.2.2.2.1]
        simp [mkDGSLEffect]
      · rw [hcb.2.2.2.2.2.2.2.2.1]
        simp [mkDGSLEffect]
      · rw [hcb.2.2.2.2.2.2.2.2.2.1]
        simp [mkDGSLEffect]
      · rw [hcb.2.2.2.2.2.2.2.2.2.2.2]
        simp [mkDGSLEffect, htx]
      · rw [hcb.2.2.2.2.2.2.2.2.2.2.1]
        simp [mkDGSLEffect, htx]
      · rw [hi1]
        simp
    | some t =>
      simp only [htx] at h
      rcases hct : CreateTexture env dctx (some t) true
          { s with nextEffectId := s.nextEffectId + 1 } with ⟨r, s2, trT⟩
      simp only [hct] at h
      cases r with
      | error err2 => simp at h
      | ok srv =>
        simp at h
        obtain ⟨he, hs', htr⟩ := h
        have hf := CreateTexture_frame env dctx (some t) true
          { s with nextEffectId := s.nextEffectId + 1 }
        rw [hct] at hf
        simp at hf
        have hins := effectInsert_spec nameOk wasMiss
          ({ configureBase info (mkDGSLEffect s.nextEffectId none) with
             textureSlots := (configureBase info
               (mkDGSLEffect s.nextEffectId none)).textureSlots.set 0 (some srv),
             textureEnabled := true }) s2
        rw [hs'] at hins
        subst he
        obtain ⟨hi1, hi2, hi3, hi4, hi5, hi6, hi7⟩ := hins
        refine ⟨?_, ?_, ?_, ?_, ?_, ?_, ?_, ?_, ?_, ?_, ?_, ?_, ?_, ?_, ?_, ?_, ?_⟩
        · simpa [mkDGSLEffect] using hcb.1
        · simpa [mkDGSLEffect] using hcb.2.1
        · exact hcb.2.2.1
        · exact hcb.2.2.2.1
        · exact hcb.2.2.2.2.1
        · exact hcb.2.2.2.2.2.1
        · exact hcb.2.2.2.2.2.2.1
        · rw [show ({ configureBase info (mkDGSLEffect s.nextEffectId none) with
             textureSlots := (configureBase info
               (mkDGSLEffect s.nextEffectId none)).textureSlots.set 0 (some srv),
             textureEnabled := true } : DGSLEffect).specular =
             (configureBase info (mkDGSLEffect s.nextEffectId none)).specular from rfl]
          rw [hcb.2.2.2.2.2.2.2.1]
          simp [mkDGSLEffect]
        · rw [show ({ configureBase info (mkDGSLEffect s.nextEffectId none) with
             textureSlots := (configureBase info
               (mkDGSLEffect s.nextEffectId none)).textureSlots.set 0 (some srv),
             textureEnabled := true } : DGSLEffect).specularDisabled =
             (configureBase info (mkDGSLEffect s.nextEffectId none)).specularDisabled from rfl]
          rw [hcb.2.2.2.2.2.2.2.2.1]
          simp [mkDGSLEffect]
        · rw [show ({ configureBase info (mkDGSLEffect s.nextEffectId none) with
             textureSlots := (configureBase info
               (mkDGSLEffect s.nextEffectId none)).textureSlots.set 0 (some srv),
             textureEnabled := true } : DGSLEffect).emissive =
             (configureBase info (mkDGSLEffect s.nextEffectId none)).emissive from rfl]
          rw [hcb.2.2.2.2.2.2.2.2.2.1]
          simp [mkDGSLEffect]
        · simp [htx]
        · have hslots : (configureBase info
              (mkDGSLEffect s.nextEffectId none)).textureSlots =
              List.replicate 8 none := by
            rw [hcb.2.2.2.2.2.2.2.2.2.2.1]
            simp [mkDGSLEffect]
          simp [hslots, htx]
        · exact hi5.trans (by simp [hf.2.2.2.1])
        · exact hi4.trans (by simp [hf.2.2.1])
        · exact hi6.trans (by simp [hf.2.2.2.2])
        · exact hi3.trans (by simp [hf.2.1])
        · rw [hi1]
          rw [hf.1, hf.2.2.1]
/-! ### Result characterization for `CreateDGSLEffect` -/

theorem createDGSLEffectMiss_error (env : Env) (dctx : Bool)
    (info : DGSLEffectInfo) (nameOk : Option (List Char)) (wasMiss : Bool)
    (s : FactoryState) (trFind : List Event) :
    ∀ err s' tr,
      createDGSLEffectMiss env dctx info nameOk wasMiss s trFind = (.error err, s', tr) →
      s'.mEffectCache = s.mEffectCache ∧ s'.mSharing = s.mSharing ∧
      s'.device = s.device := by
  intro err s' tr h
  rw [createDGSLEffectMiss] at h
  have hsf := selectShader_frame env info.pixelShader s
  rcases hsel : selectShader env info.pixelShader s with ⟨rs, s1, trS⟩
  rw [hsel] at hsf
  simp only [hsel] at h
  cases rs with
  | error err2 =>
    simp at h
    obtain ⟨_, hs, _⟩ := h
    subst hs
    exact ⟨hsf.1, hsf.2.2.1, hsf.2.2.2.2⟩
  | ok res =>
    obtain ⟨ps, lighting, allowSpec⟩ := res
    simp only at h
    have hpf := loadPrimaryTexture_frame env dctx info.texture
      (configureDGSL info lighting allowSpec (mkDGSLEffect s1.nextEffectId ps))
      { s1 with nextEffectId := s1.nextEffectId + 1 }
    rcases hlp : loadPrimaryTexture env dctx info.texture
        (configureDGSL info lighting allowSpec (mkDGSLEffect s1.nextEffectId ps))
        { s1 with nextEffectId := s1.nextEffectId + 1 } with ⟨r5, s3, trT⟩
    rw [hlp] at hpf
    simp only [hlp] at h
    cases r5 with
    | error err3 =>
      simp at h hpf
      obtain ⟨_, hs, _⟩ := h
      subst hs
      exact ⟨hpf.1.trans hsf.1, hpf.2.2.1.trans hsf.2.2.1,
             hpf.2.2.2.2.trans hsf.2.2.2.2⟩
    | ok e5 =>
      simp only at h
      have hlf := loadExtraSlots_frame env dctx (slotList info) e5 s3
      rcases hlx : loadExtraSlots env dctx (slotList info) e5 s3 with ⟨r6, s4, trL⟩
      rw [hlx] at hlf
      simp only [hlx] at h
      cases r6 with
      | error err4 =>
        simp at h hpf hlf
        obtain ⟨_, hs, _⟩ := h
        subst hs
        exact ⟨(hlf.1.trans hpf.1).trans hsf.1,
               (hlf.2.2.1.trans hpf.2.2.1).trans hsf.2.2.1,
               (hlf.2.2.2.2.trans hpf.2.2.2.2).trans hsf.2.2.2.2⟩
      | ok e6 => simp at h

theorem createDGSLEffectMiss_ok (env : Env) (dctx : Bool)
    (info : DGSLEffectInfo) (nameOk : Option (List Char)) (wasMiss : Bool)
    (s : FactoryState) (trFind : List Event)
    (ps : Option Nat) (lighting allowSpec : Bool) (s1 : FactoryState)
    (trS : List Event)
    (hsel : selectShader env info.pixelShader s = (.ok (ps, lighting, allowSpec), s1, trS)) :
    ∀ e s' tr,
      createDGSLEffectMiss env dctx info nameOk wasMiss s trFind = (.ok e, s', tr) →
      e.id = s.nextEffectId ∧ e.ctorPixelShader = ps ∧
      e.defaultLighting = lighting ∧ e.lightingEnabled = lighting ∧
      e.ambientColor = info.ambientColor ∧ e.diffuseColor = info.diffuseColor ∧
      e.alpha = info.alpha ∧
      e.specular = (if allowSpec && isNonzero3 info.specularColor then
        some (info.specularColor, info.specularPower) else none) ∧
      e.specularDisabled = !(allowSpec && isNonzero3 info.specularColor) ∧
      e.emissive = (if isNonzero3 info.emissiveColor then
        some info.emissiveColor else none) ∧
      (e.textureSlots.getD 0 none).isSome = (nonEmptyName info.texture).isSome ∧
      (∀ j, j < 7 →
        (e.textureSlots.getD (j + 1) none).isSome =
          (nonEmptyName (info.textures.getD j none)).isSome) ∧
      e.textureEnabled = ((nonEmptyName info.texture).isSome ||
        (slotList info).any (fun p => (nonEmptyName p.2).isSome)) ∧
      s'.nextEffectId = s.nextEffectId + 1 ∧ s'.mSharing = s.mSharing ∧
      s'.device = s.device ∧
      s'.mEffectCache = (match nameOk with
        | some n => if s.mSharing && wasMiss then s.mEffectCache ++ [(n, e)]
                    else s.mEffectCache
        | none => s.mEffectCache) := by
  intro e s' tr h
  have hsf0 := selectShader_frame env info.pixelShader s
  rw [hsel] at hsf0
  have hsf : s1.mEffectCache = s.mEffectCache ∧
      s1.mTextureCache = s.mTextureCache ∧ s1.mSharing = s.mSharing ∧
      s1.nextEffectId = s.nextEffectId ∧ s1.device = s.device := hsf0
  rw [createDGSLEffectMiss] at h
  simp only [hsel] at h
  have hcfg := configureDGSL_fields info lighting allowSpec
    (mkDGSLEffect s1.nextEffectId ps)
  have hpf := loadPrimaryTexture_frame env dctx info.texture
    (configureDGSL info lighting allowSpec (mkDGSLEffect s1.nextEffectId ps))
    { s1 with nextEffectId := s1.nextEffectId + 1 }
  rcases hlp : loadPrimaryTexture env dctx info.texture
      (configureDGSL info lighting allowSpec (mkDGSLEffect s1.nextEffectId ps))
      { s1 with nextEffectId := s1.nextEffectId + 1 } with ⟨r5, s3, trT⟩
  rw [hlp] at hpf
  simp only [hlp] at h
  cases r5 with
  | error err3 => simp at h
  | ok e5 =>
    simp only at h
    obtain ⟨hcore5, hlen5, hslot05, hslotk5, hen5⟩ :=
      loadPrimaryTexture_ok env dctx info.texture _ _ e5 s3 trT hlp
    have hlf := loadExtraSlots_frame env dctx (slotList info) e5 s3
    rcases hlx : loadExtraSlots env dctx (slotList info) e5 s3 with ⟨r6, s4, trL⟩
    rw [hlx] at hlf
    simp only [hlx] at h
    cases r6 with
    | error err4 => simp at h
    | ok e6 =>
      simp at h hpf hlf
      obtain ⟨he, hs', htr⟩ := h
      have hlen4 : (configureDGSL info lighting allowSpec
          (mkDGSLEffect s1.nextEffectId ps)).textureSlots.length = 8 := by
        rw [hcfg.2.2.2.2.2.2.2.2.2.2.1]
        simp [mkDGSLEffect]
      have hslots4 : (configureDGSL info lighting allowSpec
          (mkDGSLEffect s1.nextEffectId ps)).textureSlots =
          List.replicate 8 none := by
        rw [hcfg.2.2.2.2.2.2.2.2.2.2.1]
        simp [mkDGSLEffect]
      have hbounds : ∀ p ∈ slotList info, p.1 + 1 < e5.textureSlots.length := by
        intro p hp
        rw [hlen5, hlen4]
        simp only [slotList, List.mem_map, List.mem_range] at hp
        obtain ⟨j, hj, hpj⟩ := hp
        rw [← hpj]
        omega
      obtain ⟨hcore6, hlen6, hslots6, hen6⟩ :=
        loadExtraSlots_ok env dctx (slotList info) e5 s3 e6 s4 trL hlx hbounds
      have hins := effectInsert_spec nameOk wasMiss e6 s4
      rw [hs'] at hins
      subst he
      obtain ⟨hi1, hi2, hi3, hi4, hi5, hi6, hi7⟩ := hins
      obtain ⟨hc1, hc2, hc3, hc4, hc5, hc6, hc7, hc8, hc9, hc10⟩ := hcore6
      obtain ⟨hp1, hp2, hp3, hp4, hp5, hp6, hp7, hp8, hp9, hp10⟩ := hcore5
      refine ⟨?_, ?_, ?_, ?_, ?_, ?_, ?_, ?_, ?_, ?_, ?_, ?_, ?_, ?_, ?_, ?_, ?_⟩
      · rw [hc1, hp1, hcfg.1]
        simp [mkDGSLEffect, hsf.2.2.2.1]
      · rw [hc2, hp2, hcfg.2.1]
        simp [mkDGSLEffect]
      · rw [hc3, hp3, hcfg.2.2.1]
        cases lighting <;> simp [mkDGSLEffect]
      · rw [hc4, hp4, hcfg.2.2.2.1]
        cases lighting <;> simp [mkDGSLEffect]
      · rw [hc5, hp5, hcfg.2.2.2.2.1]
      · rw [hc6, hp6, hcfg.2.2.2.2.2.1]
      · rw [hc7, hp7, hcfg.2.2.2.2.2.2.1]
      · rw [hc8, hp8, hcfg.2.2.2.2.2.2.2.1]
        simp [mkDGSLEffect]
      · rw [hc9, hp9, hcfg.2.2.2.2.2.2.2.2.1]
        by_cases hsp : (allowSpec && isNonzero3 info.specularColor) = true <;>
          simp [mkDGSLEffect, hsp]
      · rw [hc10, hp10, hcfg.2.2.2.2.2.2.2.2.2.1]
        simp [mkDGSLEffect]
      · rw [hslots6 0]
        have hz : ((slotList info).any fun p =>
            p.1 + 1 == 0 && (nonEmptyName p.2).isSome) = false := by
          simp [slotList]
        rw [hz]
        rw [hslot05 (by rw [hlen4]; omega)]
        rw [hslots4]
        simp
      · intro j hj
        rw [hslots6 (j + 1)]
        rw [hslotk5 (j + 1) (by omega)]
        rw [hslots4]
        have hrep : ((List.replicate 8 (none : Option Nat)).getD (j + 1) none) = none := by
          interval_cases j <;> simp
        rw [hrep]
        simp only [Option.isSome_none, Bool.false_or]
        interval_cases j <;>
          simp [slotList, List.range_succ]
      · rw [hen6, hen5]
        rw [hcfg.2.2.2.2.2.2.2.2.2.2.2]
        simp [mkDGSLEffect, Bool.or_assoc]
      · rw [hi5, hlf.2.2.2.1, hpf.2.2.2.1, hsf.2.2.2.1]
      · rw [hi4, hlf.2.2.1, hpf.2.2.1, hsf.2.2.1]
      · rw [hi6, hlf.2.2.2.2, hpf.2.2.2.2, hsf.2.2.2.2]
      · rw [hi1]
        rw [hlf.1, hpf.1, hsf.1]
        have hmc : s4.mSharing = s.mSharing := by
          rw [hlf.2.2.1, hpf.2.2.1, hsf.2.2.1]
        rw [hmc]
/-! ### Lock discipline of the effect operations -/

theorem createEffectMiss_mutLocked (env : Env) (dctx : Bool) (info : EffectInfo)
    (nameOk : Option (List Char)) (wasMiss : Bool) (s : FactoryState)
    (trFind : List Event) (hf : mutLocked trFind) :
    mutLocked (createEffectMiss env dctx info nameOk wasMiss s trFind).2.2 := by
  rw [createEffectMiss]
  cases htx : nonEmptyName info.texture with
  | none =>
    simp only [htx]
    exact mutLocked_append hf
      (effectInsert_spec nameOk wasMiss _ _).2.2.2.2.2.2
  | some t =>
    have hm := CreateTexture_mutLocked env dctx (some t) true
      { s with nextEffectId := s.nextEffectId + 1 }
    rcases hct : CreateTexture env dctx (some t) true
        { s with nextEffectId := s.nextEffectId + 1 } with ⟨r, s2, trT⟩
    rw [hct] at hm
    simp only [htx, hct]
    cases r with
    | error err => exact mutLocked_append hf hm
    | ok srv =>
      exact mutLocked_append (mutLocked_append hf hm)
        (effectInsert_spec nameOk wasMiss _ _).2.2.2.2.2.2

theorem CreateEffect_mutLocked (env : Env) (dctx : Bool) (info : EffectInfo)
    (s : FactoryState) : mutLocked (CreateEffect env dctx info s).2.2 := by
  rw [CreateEffect]
  have hf : mutLocked (match nonEmptyName info.name with
      | some n => [Event.findEffect n]
      | none => ([] : List Event)) := by
    cases nonEmptyName info.name <;> exact ⟨rfl, rfl⟩
  cases hh : effectCacheHit info.name s with
  | some cached =>
    cases hs : s.mSharing with
    | true => simpa [hs] using hf
    | false =>
      simp only [hs]
      exact createEffectMiss_mutLocked env dctx info _ false s _ hf
  | none =>
    simp only
    exact createEffectMiss_mutLocked env dctx info _ true s _ hf

theorem createDGSLEffectMiss_mutLocked (env : Env) (dctx : Bool)
    (info : DGSLEffectInfo) (nameOk : Option (List Char)) (wasMiss : Bool)
    (s : FactoryState) (trFind : List Event) (hf : mutLocked trFind) :
    mutLocked (createDGSLEffectMiss env dctx info nameOk wasMiss s trFind).2.2 := by
  rw [createDGSLEffectMiss]
  have hms := selectShader_mutLocked env info.pixelShader s
  rcases hsel : selectShader env info.pixelShader s with ⟨rs, s1, trS⟩
  rw [hsel] at hms
  simp only [hsel]
  cases rs with
  | error err => exact mutLocked_append hf hms
  | ok res =>
    obtain ⟨ps, lighting, allowSpec⟩ := res
    simp only
    have hmp := loadPrimaryTexture_mutLocked env dctx info.texture
      (configureDGSL info lighting allowSpec (mkDGSLEffect s1.nextEffectId ps))
      { s1 with nextEffectId := s1.nextEffectId + 1 }
    rcases hlp : loadPrimaryTexture env dctx info.texture
        (configureDGSL info lighting allowSpec (mkDGSLEffect s1.nextEffectId ps))
        { s1 with nextEffectId := s1.nextEffectId + 1 } with ⟨r5, s3, trT⟩
    rw [hlp] at hmp
    cases r5 with
    | error err3 => exact mutLocked_append (mutLocked_append hf hms) hmp
    | ok e5 =>
      simp only
      have hml := loadExtraSlots_mutLocked env dctx (slotList info) e5 s3
      rcases hlx : loadExtraSlots env dctx (slotList info) e5 s3 with ⟨r6, s4, trL⟩
      rw [hlx] at hml
      cases r6 with
      | error err4 =>
        exact mutLocked_append (mutLocked_append (mutLocked_append hf hms) hmp) hml
      | ok e6 =>
        exact mutLocked_append (mutLocked_append (mutLocked_append
          (mutLocked_append hf hms) hmp) hml)
          (effectInsert_spec nameOk wasMiss _ _).2.2.2.2.2.2

theorem CreateDGSLEffect_mutLocked (env : Env) (dctx : Bool)
    (info : DGSLEffectInfo) (s : FactoryState) :
    mutLocked (CreateDGSLEffect env dctx info s).2.2 := by
  rw [CreateDGSLEffect]
  have hf : mutLocked (match nonEmptyName info.name with
      | some n => [Event.findEffect n]
      | none => ([] : List Event)) := by
    cases nonEmptyName info.name <;> exact ⟨rfl, rfl⟩
  cases hh : effectCacheHit info.name s with
  | some cached =>
    cases hs : s.mSharing with
    | true => simpa [hs] using hf
    | false =>
      simp only [hs]
      exact createDGSLEffectMiss_mutLocked env dctx info _ false s _ hf
  | none =>
    simp only
    exact createDGSLEffectMiss_mutLocked env dctx info _ true s _ hf

theorem ReleaseCache_mutLocked (s : FactoryState) :
    mutLocked (ReleaseCache s).2 :=
  ⟨rfl, rfl⟩

/-! ### Key-uniqueness helpers -/

theorem nodup_concat_key {α β : Type} {l : List (α × β)} {a : α} {b : β}
    (h : (l.map Prod.fst).Nodup) (ha : a ∉ l.map Prod.fst) :
    ((l ++ [(a, b)]).map Prod.fst).Nodup := by
  rw [List.map_append]
  rw [List.nodup_append]
  refine ⟨h, by simp, ?_⟩
  intro x hx
  simp only [List.map_cons, List.map_nil, List.mem_singleton]
  intro hxa
  subst hxa
  exact ha hx

theorem nonEmptyName_some {name : Option (List Char)} {n : List Char}
    (hn : name = some n) (hne : n ≠ []) : nonEmptyName name = some n := by
  subst hn
  simp [nonEmptyName, hne]

/-- `CreateEffect` preserves key-uniqueness of the effect cache. -/
theorem CreateEffect_nodup (env : Env) (dctx : Bool) (info : EffectInfo)
    (s : FactoryState) (hnd : (s.mEffectCache.map Prod.fst).Nodup) :
    ((CreateEffect env dctx info s).2.1.mEffectCache.map Prod.fst).Nodup := by
  rw [CreateEffect]
  cases hh : effectCacheHit info.name s with
  | some cached =>
    cases hs : s.mSharing with
    | true => simpa using hnd
    | false =>
      simp only
      rcases hm : createEffectMiss env dctx info (nonEmptyName info.name) false s
          (match nonEmptyName info.name with
           | some n => [Event.findEffect n]
           | none => []) with ⟨r, s', tr⟩
      cases r with
      | error err =>
        have := (createEffectMiss_spec env dctx info (nonEmptyName info.name)
          false s _).1 err s' tr hm
        simp [hm, this.1, hnd]
      | ok e =>
        have := (createEffectMiss_spec env dctx info (nonEmptyName info.name)
          false s _).2 e s' tr hm
        have hc := this.2.2.2.2.2.2.2.2.2.2.2.2.2.2.2.2
        cases hno : nonEmptyName info.name with
        | none => rw [hno] at hc; simpa [hc] using hnd
        | some n => rw [hno] at hc; simp at hc; simpa [hc] using hnd
  | none =>
    simp only
    rcases hm : createEffectMiss env dctx info (nonEmptyName info.name) true s
        (match nonEmptyName info.name with
         | some n => [Event.findEffect n]
         | none => []) with ⟨r, s', tr⟩
    cases r with
    | error err =>
      have := (createEffectMiss_spec env dctx info (nonEmptyName info.name)
        true s _).1 err s' tr hm
      simp [hm, this.1, hnd]
    | ok e =>
      have := (createEffectMiss_spec env dctx info (nonEmptyName info.name)
        true s _).2 e s' tr hm
      have hc := this.2.2.2.2.2.2.2.2.2.2.2.2.2.2.2.2
      cases hno : nonEmptyName info.name with
      | none => rw [hno] at hc; simpa [hc] using hnd
      | some n =>
        rw [hno] at hc
        have hlk : List.lookup n s.mEffectCache = none := by
          rw [effectCacheHit, hno] at hh
          exact hh
        cases hs : s.mSharing with
        | false => rw [hs] at hc; simpa [hc] using hnd
        | true =>
          rw [hs] at hc
          simp at hc
          rw [hc]
          exact nodup_concat_key hnd (lookup_none_notMem hlk)

/-- `CreateDGSLEffect` preserves key-uniqueness of the effect cache. -/
theorem CreateDGSLEffect_nodup (env : Env) (dctx : Bool) (info : DGSLEffectInfo)
    (s : FactoryState) (hnd : (s.mEffectCache.map Prod.fst).Nodup) :
    ((CreateDGSLEffect env dctx info s).2.1.mEffectCache.map Prod.fst).Nodup := by
  rw [CreateDGSLEffect]
  cases hh : effectCacheHit info.name s with
  | some cached =>
    cases hs : s.mSharing with
    | true => simpa using hnd
    | false =>
      simp only
      rcases hm : createDGSLEffectMiss env dctx info (nonEmptyName info.name) false s
          (match nonEmptyName info.name with
           | some n => [Event.findEffect n]
           | none => []) with ⟨r, s', tr⟩
      cases r with
      | error err =>
        have := createDGSLEffectMiss_error env dctx info (nonEmptyName info.name)
          false s _ err s' tr hm
        simp [hm, this.1, hnd]
      | ok e =>
        rcases hsel : selectShader env info.pixelShader s with ⟨rs, s1, trS⟩
        cases rs with
        | error err2 =>
          rw [createDGSLEffectMiss, hsel] at hm
          simp at hm
        | ok res =>
          obtain ⟨ps, lighting, allowSpec⟩ := res
          have := createDGSLEffectMiss_ok env dctx info (nonEmptyName info.name)
            false s _ ps lighting allowSpec s1 trS hsel e s' tr hm
          have hc := this.2.2.2.2.2.2.2.2.2.2.2.2.2.2.2.2
          cases hno : nonEmptyName info.name with
          | none => rw [hno] at hc; simpa [hc] using hnd
          | some n => rw [hno] at hc; simp at hc; simpa [hc] using hnd
  | none =>
    simp only
    rcases hm : createDGSLEffectMiss env dctx info (nonEmptyName info.name) true s
        (match nonEmptyName info.name with
         | some n => [Event.findEffect n]
         | none => []) with ⟨r, s', tr⟩
    cases r with
    | error err =>
      have := createDGSLEffectMiss_error env dctx info (nonEmptyName info.name)
        true s _ err s' tr hm
      simp [hm, this.1, hnd]
    | ok e =>
      rcases hsel : selectShader env info.pixelShader s with ⟨rs, s1, trS⟩
      cases rs with
      | error err2 =>
        rw [createDGSLEffectMiss, hsel] at hm
        simp at hm
      | ok res =>
        obtain ⟨ps, lighting, allowSpec⟩ := res
        have := createDGSLEffectMiss_ok env dctx info (nonEmptyName info.name)
          true s _ ps lighting allowSpec s1 trS hsel e s' tr hm
        have hc := this.2.2.2.2.2.2.2.2.2.2.2.2.2.2.2.2
        cases hno : nonEmptyName info.name with
        | none => rw [hno] at hc; simpa [hc] using hnd
        | some n =>
          rw [hno] at hc
          have hlk : List.lookup n s.mEffectCache = none := by
            rw [effectCacheHit, hno] at hh
            exact hh
          cases hs : s.mSharing with
          | false => rw [hs] at hc; simpa [hc] using hnd
          | true =>
            rw [hs] at hc
            simp at hc
            rw [hc]
            exact nodup_concat_key hnd (lookup_none_notMem hlk)

/-! ### Reduction helpers for the top-level effect operations -/

theorem CreateEffect_miss_eq (env : Env) (dctx : Bool) (info : EffectInfo)
    (s : FactoryState) (hh : effectCacheHit info.name s = none) :
    CreateEffect env dctx info s =
      createEffectMiss env dctx info (nonEmptyName info.name) true s
        (match nonEmptyName info.name with
         | some n => [Event.findEffect n]
         | none => []) := by
  rw [CreateEffect, hh]

theorem CreateEffect_nosharing_eq (env : Env) (dctx : Bool) (info : EffectInfo)
    (s : FactoryState) (cached : DGSLEffect)
    (hh : effectCacheHit info.name s = some cached) (hs : s.mSharing = false) :
    CreateEffect env dctx info s =
      createEffectMiss env dctx info (nonEmptyName info.name) false s
        (match nonEmptyName info.name with
         | some n => [Event.findEffect n]
         | none => []) := by
  rw [CreateEffect, hh]
  simp [hs]

theorem CreateDGSLEffect_miss_eq (env : Env) (dctx : Bool)
    (info : DGSLEffectInfo) (s : FactoryState)
    (hh : effectCacheHit info.name s = none) :
    CreateDGSLEffect env dctx info s =
      createDGSLEffectMiss env dctx info (nonEmptyName info.name) true s
        (match nonEmptyName info.name with
         | some n => [Event.findEffect n]
         | none => []) := by
  rw [CreateDGSLEffect, hh]

theorem CreateDGSLEffect_nosharing_eq (env : Env) (dctx : Bool)
    (info : DGSLEffectInfo) (s : FactoryState) (cached : DGSLEffect)
    (hh : effectCacheHit info.name s = some cached) (hs : s.mSharing = false) :
    CreateDGSLEffect env dctx info s =
      createDGSLEffectMiss env dctx info (nonEmptyName info.name) false s
        (match nonEmptyName info.name with
         | some n => [Event.findEffect n]
         | none => []) := by
  rw [CreateDGSLEffect, hh]
  simp [hs]

/-- The `id`, effect-cache and allocator components of any successful
`createDGSLEffectMiss`, independent of the shader-selection outcome. -/
theorem createDGSLEffectMiss_ok_any (env : Env) (dctx : Bool)
    (info : DGSLEffectInfo) (nameOk : Option (List Char)) (wasMiss : Bool)
    (s : FactoryState) (trFind : List Event) :
    ∀ e s' tr,
      createDGSLEffectMiss env dctx info nameOk wasMiss s trFind = (.ok e, s', tr) →
      e.id = s.nextEffectId ∧
      s'.mEffectCache = (match nameOk with
        | some n => if s.mSharing && wasMiss then s.mEffectCache ++ [(n, e)]
                    else s.mEffectCache
        | none => s.mEffectCache) ∧
      s'.nextEffectId = s.nextEffectId + 1 := by
  intro e s' tr h
  rcases hsel : selectShader env info.pixelShader s with ⟨rs, s1, trS⟩
  cases rs with
  | error err =>
    rw [createDGSLEffectMiss] at h
    simp only [hsel] at h
    simp at h
  | ok res =>
    obtain ⟨ps, lighting, allowSpec⟩ := res
    have hok := createDGSLEffectMiss_ok env dctx info nameOk wasMiss s trFind
      ps lighting allowSpec s1 trS hsel e s' tr h
    exact ⟨hok.1, hok.2.2.2.2.2.2.2.2.2.2.2.2.2.2.2.2,
           hok.2.2.2.2.2.2.2.2.2.2.2.2.2.1⟩

/-- C1: for every effect request with a non-null, non-empty name: under
sharing, a cache hit returns the identical cached instance with the state
unchanged; otherwise a new effect is constructed and, exactly when sharing is
on, inserted under the name; key-uniqueness of the cache is preserved, so
each name maps to at most one cached instance. -/
theorem c1_effect_cache_dedup (env : Env) (dctx : Bool) (info : EffectInfo)
    (dinfo : DGSLEffectInfo) (s : FactoryState) (n : List Char)
    (e : DGSLEffect) :
    (info.name = some n → n ≠ [] → s.mSharing = true →
      List.lookup n s.mEffectCache = some e →
      CreateEffect env dctx info s = (.ok e, s, [Event.findEffect n]))
  ∧ (info.name = some n → n ≠ [] → List.lookup n s.mEffectCache = none →
      ∀ e' s' tr, CreateEffect env dctx info s = (.ok e', s', tr) →
        e'.id = s.nextEffectId ∧
        s'.mEffectCache = (if s.mSharing = true then s.mEffectCache ++ [(n, e')]
                           else s.mEffectCache))
  ∧ (info.name = some n → n ≠ [] → s.mSharing = false →
      ∀ e' s' tr, CreateEffect env dctx info s = (.ok e', s', tr) →
        e'.id = s.nextEffectId ∧ s'.mEffectCache = s.mEffectCache)
  ∧ (dinfo.name = some n → n ≠ [] → s.mSharing = true →
      List.lookup n s.mEffectCache = some e →
      CreateDGSLEffect env dctx dinfo s = (.ok e, s, [Event.findEffect n]))
  ∧ (dinfo.name = some n → n ≠ [] → List.lookup n s.mEffectCache = none →
      ∀ e' s' tr, CreateDGSLEffect env dctx dinfo s = (.ok e', s', tr) →
        e'.id = s.nextEffectId ∧
        s'.mEffectCache = (if s.mSharing = true then s.mEffectCache ++ [(n, e')]
                           else s.mEffectCache))
  ∧ (dinfo.name = some n → n ≠ [] → s.mSharing = false →
      ∀ e' s' tr, CreateDGSLEffect env dctx dinfo s = (.ok e', s', tr) →
        e'.id = s.nextEffectId ∧ s'.mEffectCache = s.mEffectCache)
  ∧ ((s.mEffectCache.map Prod.fst).Nodup →
      ((CreateEffect env dctx info s).2.1.mEffectCache.map Prod.fst).Nodup ∧
      ((CreateDGSLEffect env dctx dinfo s).2.1.mEffectCache.map Prod.fst).Nodup) := by
  refine ⟨?_, ?_, ?_, ?_, ?_, ?_, ?_⟩
  · intro hn hne hs hl
    have hno := nonEmptyName_some hn hne
    rw [CreateEffect]
    rw [show effectCacheHit info.name s = some e by rw [effectCacheHit, hno]; exact hl]
    simp [hs, hno]
  · intro hn hne hl e' s' tr hce
    have hno := nonEmptyName_some hn hne
    have hh : effectCacheHit info.name s = none := by
      rw [effectCacheHit, hno]; exact hl
    rw [CreateEffect_miss_eq env dctx info s hh] at hce
    have hsp := (createEffectMiss_spec env dctx info (nonEmptyName info.name)
      true s _).2 e' s' tr hce
    refine ⟨hsp.1, ?_⟩
    have hc := hsp.2.2.2.2.2.2.2.2.2.2.2.2.2.2.2.2
    rw [hno] at hc
    simpa using hc
  · intro hn hne hs e' s' tr hce
    have hno := nonEmptyName_some hn hne
    cases hl : List.lookup n s.mEffectCache with
    | none =>
      have hh : effectCacheHit info.name s = none := by
        rw [effectCacheHit, hno]; exact hl
      rw [CreateEffect_miss_eq env dctx info s hh] at hce
      have hsp := (createEffectMiss_spec env dctx info (nonEmptyName info.name)
        true s _).2 e' s' tr hce
      refine ⟨hsp.1, ?_⟩
      have hc := hsp.2.2.2.2.2.2.2.2.2.2.2.2.2.2.2.2
      rw [hno] at hc
      simpa [hs] using hc
    | some cached =>
      have hh : effectCacheHit info.name s = some cached := by
        rw [effectCacheHit, hno]; exact hl
      rw [CreateEffect_nosharing_eq env dctx info s cached hh hs] at hce
      have hsp := (createEffectMiss_spec env dctx info (nonEmptyName info.name)
        false s _).2 e' s' tr hce
      refine ⟨hsp.1, ?_⟩
      have hc := hsp.2.2.2.2.2.2.2.2.2.2.2.2.2.2.2.2
      rw [hno] at hc
      simpa [hs] using hc
  · intro hn hne hs hl
    have hno := nonEmptyName_some hn hne
    rw [CreateDGSLEffect]
    rw [show effectCacheHit dinfo.name s = some e by rw [effectCacheHit, hno]; exact hl]
    simp [hs, hno]
  · intro hn hne hl e' s' tr hce
    have hno := nonEmptyName_some hn hne
    have hh : effectCacheHit dinfo.name s = none := by
      rw [effectCacheHit, hno]; exact hl
    rw [CreateDGSLEffect_miss_eq env dctx dinfo s hh] at hce
    have hsp := createDGSLEffectMiss_ok_any env dctx dinfo (nonEmptyName dinfo.name)
      true s _ e' s' tr hce
    refine ⟨hsp.1, ?_⟩
    have hc := hsp.2.1
    rw [hno] at hc
    simpa using hc
  · intro hn hne hs e' s' tr hce
    have hno := nonEmptyName_some hn hne
    cases hl : List.lookup n s.mEffectCache with
    | none =>
      have hh : effectCacheHit dinfo.name s = none := by
        rw [effectCacheHit, hno]; exact hl
      rw [CreateDGSLEffect_miss_eq env dctx dinfo s hh] at hce
      have hsp := createDGSLEffectMiss_ok_any env dctx dinfo (nonEmptyName dinfo.name)
        true s _ e' s' tr hce
      refine ⟨hsp.1, ?_⟩
      have hc := hsp.2.1
      rw [hno] at hc
      simpa [hs] using hc
    | some cached =>
      have hh : effectCacheHit dinfo.name s = some cached := by
        rw [effectCacheHit, hno]; exact hl
      rw [CreateDGSLEffect_nosharing_eq env dctx dinfo s cached hh hs] at hce
      have hsp := createDGSLEffectMiss_ok_any env dctx dinfo (nonEmptyName dinfo.name)
        false s _ e' s' tr hce
      refine ⟨hsp.1, ?_⟩
      have hc := hsp.2.1
      rw [hno] at hc
      simpa [hs] using hc
  · intro hnd
    exact ⟨CreateEffect_nodup env dctx info s hnd,
           CreateDGSLEffect_nodup env dctx dinfo s hnd⟩

/-! ### Concrete fixtures for witnesses -/

/-- A benign environment: feature level 10.0, all loaders succeed. -/
def envW : Env :=
  ⟨40960, fun _ => some 100, fun _ _ => some 200,
   fun _ => some [1, 2], fun _ => some 300⟩

/-- An environment on feature level 9.1 (0x9100). -/
def envW9 : Env :=
  ⟨37120, fun _ => some 100, fun _ _ => some 200,
   fun _ => some [1, 2], fun _ => some 300⟩

/-- An environment whose loaders all fail. -/
def envBad : Env :=
  ⟨40960, fun _ => none, fun _ _ => none, fun _ => none, fun _ => none⟩

def effW : DGSLEffect := mkDGSLEffect 77 none

def infoW : EffectInfo :=
  ⟨some ['m'], 9, ⟨1, 2, 3⟩, ⟨4, 5, 6⟩, ⟨1, 0, 0⟩, 7, ⟨0, 1, 0⟩,
   some ['t', '.', 'd', 'd', 's']⟩

def dinfoW : DGSLEffectInfo :=
  ⟨infoW, some ['W', 'o', 'o', 'd', '_', 'p', 'h', 'o', 'n', 'g'],
   [none, some ['u', '.', 'p', 'n', 'g'], none, none, none, none, none]⟩

def sHit : FactoryState := ⟨0, true, [(['m'], effW)], [], [], 5⟩

def sMiss : FactoryState := ⟨0, true, [], [], [], 5⟩

/-- Witness for C1: on the concrete cached state the hit returns the cached
instance unchanged, and on the empty state the built effect is inserted. -/
theorem c1_effect_cache_dedup_witness :
    CreateEffect envW false infoW sHit = (.ok effW, sHit, [Event.findEffect ['m']]) ∧
    (CreateDGSLEffect envW false dinfoW sHit = (.ok effW, sHit, [Event.findEffect ['m']])) := by
  constructor
  · exact (c1_effect_cache_dedup envW false infoW dinfoW sHit ['m'] effW).1
      rfl (by decide) rfl (by decide)
  · exact (c1_effect_cache_dedup envW false infoW dinfoW sHit ['m'] effW).2.2.2.1
      rfl (by decide) rfl (by decide)

/-- C3: for every name, under sharing a cached texture or pixel shader is
returned identically with no load and no state change; on a miss the
resource is loaded from file and inserted exactly when sharing is on and the
name is non-empty, so a repeated request yields the same resource. -/
theorem c3_resource_cache_dedup (env : Env) (dctx : Bool) (s : FactoryState)
    (n : List Char) (v : Nat) :
    (s.mSharing = true → List.lookup n s.mTextureCache = some v →
      CreateTexture env dctx (some n) true s = (.ok v, s, [Event.findTexture n]))
  ∧ (List.lookup n s.mTextureCache = none →
      ∀ v' s' tr, CreateTexture env dctx (some n) true s = (.ok v', s', tr) →
        (textureLoad env dctx n).1 = some v' ∧
        s'.mTextureCache = (if s.mSharing && !n.isEmpty then
            s.mTextureCache ++ [(n, v')] else s.mTextureCache))
  ∧ (s.mSharing = true → n ≠ [] →
      ∀ v' s' tr, CreateTexture env dctx (some n) true s = (.ok v', s', tr) →
        (CreateTexture env dctx (some n) true s').1 = .ok v')
  ∧ (s.mSharing = true → List.lookup n s.mShaderCache = some v →
      CreatePixelShader env (some n) true s = (.ok v, s, [Event.findShader n]))
  ∧ (List.lookup n s.mShaderCache = none →
      ∀ v' s' tr, CreatePixelShader env (some n) true s = (.ok v', s', tr) →
        (∃ data, env.readEntireFile n = some data ∧
           env.devCreatePixelShader data = some v') ∧
        s'.mShaderCache = (if s.mSharing && !n.isEmpty then
            s.mShaderCache ++ [(n, v')] else s.mShaderCache))
  ∧ (s.mSharing = true → n ≠ [] →
      ∀ v' s' tr, CreatePixelShader env (some n) true s = (.ok v', s', tr) →
        (CreatePixelShader env (some n) true s').1 = .ok v') := by
  refine ⟨?_, ?_, ?_, ?_, ?_, ?_⟩
  · intro hs hl
    simp [CreateTexture, hl, hs]
  · intro hl v' s' tr hct
    have hred : textureMiss env dctx n true s = (.ok v', s', tr) := by
      rw [← hct]
      simp [CreateTexture, hl]
    have hsp := (textureMiss_spec env dctx n true s).2 v' s' tr hred
    refine ⟨hsp.1, ?_⟩
    simpa using hsp.2.1
  · intro hs hne v' s' tr hct
    have hnB : n.isEmpty = false := by simpa using hne
    cases hl : List.lookup n s.mTextureCache with
    | some v0 =>
      have : CreateTexture env dctx (some n) true s = (.ok v0, s, [Event.findTexture n]) := by
        simp [CreateTexture, hl, hs]
      rw [this] at hct
      simp at hct
      obtain ⟨hv, hs', _⟩ := hct
      subst hv
      rw [← hs']
      simp [CreateTexture, hl, hs]
    | none =>
      have hred : textureMiss env dctx n true s = (.ok v', s', tr) := by
        rw [← hct]
        simp [CreateTexture, hl]
      have hsp := (textureMiss_spec env dctx n true s).2 v' s' tr hred
      have hcache : s'.mTextureCache = s.mTextureCache ++ [(n, v')] := by
        have := hsp.2.1
        simp [hs, hnB] at this
        exact this
      have hsh : s'.mSharing = true := by
        rw [hsp.2.2.1]
        simp [hs]
      have hlk : List.lookup n s'.mTextureCache = some v' := by
        rw [hcache, lookup_append_none _ hl]
        simp [List.lookup]
      simp [CreateTexture, hlk, hsh]
  · intro hs hl
    simp [CreatePixelShader, hl, hs]
  · intro hl v' s' tr hcp
    have hred : shaderMiss env n true s = (.ok v', s', tr) := by
      rw [← hcp]
      simp [CreatePixelShader, hl]
    have hsp := (shaderMiss_spec env n true s).2 v' s' tr hred
    refine ⟨hsp.1, ?_⟩
    simpa using hsp.2.1
  · intro hs hne v' s' tr hcp
    have hnB : n.isEmpty = false := by simpa using hne
    cases hl : List.lookup n s.mShaderCache with
    | some v0 =>
      have : CreatePixelShader env (some n) true s = (.ok v0, s, [Event.findShader n]) := by
        simp [CreatePixelShader, hl, hs]
      rw [this] at hcp
      simp at hcp
      obtain ⟨hv, hs', _⟩ := hcp
      subst hv
      rw [← hs']
      simp [CreatePixelShader, hl, hs]
    | none =>
      have hred : shaderMiss env n true s = (.ok v', s', tr) := by
        rw [← hcp]
        simp [CreatePixelShader, hl]
      have hsp := (shaderMiss_spec env n true s).2 v' s' tr hred
      have hcache : s'.mShaderCache = s.mShaderCache ++ [(n, v')] := by
        have := hsp.2.1
        simp [hs, hnB] at this
        exact this
      have hsh : s'.mSharing = true := by
        rw [hsp.2.2]
        simp [hs]
      have hlk : List.lookup n s'.mShaderCache = some v' := by
        rw [hcache, lookup_append_none _ hl]
        simp [List.lookup]
      simp [CreatePixelShader, hlk, hsh]

def sRes : FactoryState := ⟨0, true, [], [(['t'], 42)], [(['p'], 43)], 5⟩

/-- Witness for C3: concrete cache hits return the cached resources. -/
theorem c3_resource_cache_dedup_witness :
    CreateTexture envW false (some ['t']) true sRes =
      (.ok 42, sRes, [Event.findTexture ['t']]) ∧
    CreatePixelShader envW (some ['p']) true sRes =
      (.ok 43, sRes, [Event.findShader ['p']]) :=
  ⟨(c3_resource_cache_dedup envW false sRes ['t'] 42).1 rfl (by decide),
   (c3_resource_cache_dedup envW false sRes ['p'] 43).2.2.2.1 rfl (by decide)⟩

/-- C8: `CreateTexture` and `CreatePixelShader` throw "invalid arguments"
exactly when the name or the output pointer is null, and every thrown
exception (including loader failures) leaves the whole state unchanged. -/
theorem c8_invalid_args_and_exception_safety (env : Env) (dctx : Bool)
    (name : Option (List Char)) (ov : Bool) (s : FactoryState) :
    ((CreateTexture env dctx name ov s).1 = .error .invalidArgs ↔
      (name = none ∨ ov = false))
  ∧ (∀ err s' tr, CreateTexture env dctx name ov s = (.error err, s', tr) → s' = s)
  ∧ ((CreatePixelShader env name ov s).1 = .error .invalidArgs ↔
      (name = none ∨ ov = false))
  ∧ (∀ err s' tr, CreatePixelShader env name ov s = (.error err, s', tr) → s' = s) := by
  refine ⟨?_, ?_, ?_, ?_⟩
  · cases name with
    | none => simp [CreateTexture]
    | some n =>
      cases ov with
      | false => simp [CreateTexture]
      | true =>
        constructor
        · intro h
          exfalso
          cases hl : List.lookup n s.mTextureCache with
          | some v =>
            cases hs : s.mSharing with
            | true =>
              rw [show CreateTexture env dctx (some n) true s =
                  (.ok v, s, [Event.findTexture n]) by simp [CreateTexture, hl, hs]] at h
              simp at h
            | false =>
              have hred : CreateTexture env dctx (some n) true s =
                  textureMiss env dctx n false s := by
                simp [CreateTexture, hl, hs]
              rw [hred] at h
              rcases hm : textureMiss env dctx n false s with ⟨r, s2, tr2⟩
              rw [hm] at h
              cases r with
              | ok v2 => simp at h
              | error err =>
                have hsp := (textureMiss_spec env dctx n false s).1 err s2 tr2 hm
                simp at h
                rw [h] at hsp
                simp at hsp
          | none =>
            have hred : CreateTexture env dctx (some n) true s =
                textureMiss env dctx n true s := by
              simp [CreateTexture, hl]
            rw [hred] at h
            rcases hm : textureMiss env dctx n true s with ⟨r, s2, tr2⟩
            rw [hm] at h
            cases r with
            | ok v2 => simp at h
            | error err =>
              have hsp := (textureMiss_spec env dctx n true s).1 err s2 tr2 hm
              simp at h
              rw [h] at hsp
              simp at hsp
        · rintro (h | h) <;> simp at h
  · intro err s' tr h
    cases name with
    | none =>
      simp [CreateTexture] at h
      exact h.2.1.symm
    | some n =>
      cases ov with
      | false =>
        simp [CreateTexture] at h
        exact h.2.1.symm
      | true =>
        cases hl : List.lookup n s.mTextureCache with
        | some v =>
          cases hs : s.mSharing with
          | true =>
            rw [show CreateTexture env dctx (some n) true s =
                (.ok v, s, [Event.findTexture n]) by simp [CreateTexture, hl, hs]] at h
            simp at h
          | false =>
            have hred : CreateTexture env dctx (some n) true s =
                textureMiss env dctx n false s := by
              simp [CreateTexture, hl, hs]
            rw [hred] at h
            exact ((textureMiss_spec env dctx n false s).1 err s' tr h).2.1
        | none =>
          have hred : CreateTexture env dctx (some n) true s =
              textureMiss env dctx n true s := by
            simp [CreateTexture, hl]
          rw [hred] at h
          exact ((textureMiss_spec env dctx n true s).1 err s' tr h).2.1
  · cases name with
    | none => simp [CreatePixelShader]
    | some n =>
      cases ov with
      | false => simp [CreatePixelShader]
      | true =>
        constructor
        · intro h
          exfalso
          cases hl : List.lookup n s.mShaderCache with
          | some v =>
            cases hs : s.mSharing with
            | true =>
              rw [show CreatePixelShader env (some n) true s =
                  (.ok v, s, [Event.findShader n]) by simp [CreatePixelShader, hl, hs]] at h
              simp at h
            | false =>
              have hred : CreatePixelShader env (some n) true s =
                  shaderMiss env n false s := by
                simp [CreatePixelShader, hl, hs]
              rw [hred] at h
              rcases hm : shaderMiss env n false s with ⟨r, s2, tr2⟩
              rw [hm] at h
              cases r with
              | ok v2 => simp at h
              | error err =>
                have hsp := (shaderMiss_spec env n false s).1 err s2 tr2 hm
                simp at h
                rw [h] at hsp
                simp at hsp
          | none =>
            have hred : CreatePixelShader env (some n) true s =
                shaderMiss env n true s := by
              simp [CreatePixelShader, hl]
            rw [hred] at h
            rcases hm : shaderMiss env n true s with ⟨r, s2, tr2⟩
            rw [hm] at h
            cases r with
            | ok v2 => simp at h
            | error err =>
              have hsp := (shaderMiss_spec env n true s).1 err s2 tr2 hm
              simp at h
              rw [h] at hsp
              simp at hsp
        · rintro (h | h) <;> simp at h
  · intro err s' tr h
    cases name with
    | none =>
      simp [CreatePixelShader] at h
      exact h.2.1.symm
    | some n =>
      cases ov with
      | false =>
        simp [CreatePixelShader] at h
        exact h.2.1.symm
      | true =>
        cases hl : List.lookup n s.mShaderCache with
        | some v =>
          cases hs : s.mSharing with
          | true =>
            rw [show CreatePixelShader env (some n) true s =
                (.ok v, s, [Event.findShader n]) by simp [CreatePixelShader, hl, hs]] at h
            simp at h
          | false =>
            have hred : CreatePixelShader env (some n) true s =
                shaderMiss env n false s := by
              simp [CreatePixelShader, hl, hs]
            rw [hred] at h
            exact ((shaderMiss_spec env n false s).1 err s' tr h).2
        | none =>
          have hred : CreatePixelShader env (some n) true s =
              shaderMiss env n true s := by
            simp [CreatePixelShader, hl]
          rw [hred] at h
          exact ((shaderMiss_spec env n true s).1 err s' tr h).2

/-- Witness for C8: a null name and a null output pointer both yield the
"invalid arguments" exception at concrete inputs. -/
theorem c8_invalid_args_and_exception_safety_witness :
    (CreateTexture envW false none true sMiss).1 = .error .invalidArgs ∧
    (CreatePixelShader envW (some ['p']) false sMiss).1 = .error .invalidArgs :=
  ⟨(c8_invalid_args_and_exception_safety envW false none true sMiss).1.mpr
     (Or.inl rfl),
   (c8_invalid_args_and_exception_safety envW false (some ['p']) false sMiss).2.2.1.mpr
     (Or.inr rfl)⟩

/-- Shape of a `textureMiss` trace: the find, the loader events, then at most
a locked insert. -/
theorem textureMiss_trace (env : Env) (dctx : Bool) (n : List Char) (w : Bool)
    (s : FactoryState) :
    ∃ post, (textureMiss env dctx n w s).2.2 =
      Event.findTexture n :: ((textureLoad env dctx n).2 ++ post) ∧
      ∀ ev ∈ post, ev = Event.lock ∨ ev = Event.unlock ∨
        ev = Event.insertTexture n := by
  rcases htl : textureLoad env dctx n with ⟨o, trl⟩
  cases o with
  | none =>
    refine ⟨[], ?_, by simp⟩
    simp [textureMiss, htl]
  | some srv =>
    by_cases hc : (s.mSharing && !n.isEmpty && w) = true
    · refine ⟨[Event.lock, Event.insertTexture n, Event.unlock], ?_, by simp⟩
      simp [textureMiss, htl, hc]
    · refine ⟨[], ?_, by simp⟩
      simp [textureMiss, htl, hc]

/-- C7: on a cache miss `CreateTexture` calls the DDS loader exactly when the
file extension is `.dds` case-insensitively, and otherwise the WIC loader
with the device context exactly as supplied; no other loader call occurs. -/
theorem c7_texture_loader_dispatch (env : Env) (dctx : Bool) (s : FactoryState)
    (n : List Char)
    (hmiss : s.mSharing = false ∨ List.lookup n s.mTextureCache = none) :
    ((Event.callDDS n ∈ (CreateTexture env dctx (some n) true s).2.2) ↔
       wcsicmpEq (fileExt n) dot_dds = true)
  ∧ ((Event.callWIC dctx n ∈ (CreateTexture env dctx (some n) true s).2.2) ↔
       wcsicmpEq (fileExt n) dot_dds = false)
  ∧ (∀ b m, Event.callWIC b m ∈ (CreateTexture env dctx (some n) true s).2.2 →
       b = dctx ∧ m = n)
  ∧ (∀ m, Event.callDDS m ∈ (CreateTexture env dctx (some n) true s).2.2 →
       m = n) := by
  obtain ⟨w, hred⟩ : ∃ w, CreateTexture env dctx (some n) true s =
      textureMiss env dctx n w s := by
    cases hl : List.lookup n s.mTextureCache with
    | none => exact ⟨true, by simp [CreateTexture, hl]⟩
    | some v =>
      rcases hmiss with hs | hlnone
      · exact ⟨false, by simp [CreateTexture, hl, hs]⟩
      · rw [hl] at hlnone
        simp at hlnone
  rw [hred]
  obtain ⟨post, htr, hpost⟩ := textureMiss_trace env dctx n w s
  rw [htr]
  by_cases hdds : wcsicmpEq (fileExt n) dot_dds = true
  · have hl2 : (textureLoad env dctx n).2 = [Event.callDDS n] := by
      simp [textureLoad, hdds]
    rw [hl2]
    refine ⟨by simp [hdds], ?_, ?_, ?_⟩
    · simp only [hdds]
      constructor
      · intro hmem
        simp at hmem
        rcases hpost _ hmem with h | h | h <;> simp at h
      · intro hfalse
        simp at hfalse
    · intro b m hmem
      simp at hmem
      rcases hpost _ hmem with h | h | h <;> simp at h
    · intro m hmem
      simp at hmem
      rcases hmem with hmem | hmem
      · exact hmem
      · rcases hpost _ hmem with h | h | h <;> simp at h
  · by_cases hdx : dctx = true
    · subst hdx
      have hl2 : (textureLoad env true n).2 =
          [Event.lock, Event.callWIC true n, Event.unlock] := by
        simp [textureLoad, hdds]
      rw [hl2]
      refine ⟨?_, by simp [hdds], ?_, ?_⟩
      · simp only [hdds]
        constructor
        · intro hmem
          simp at hmem
          rcases hpost _ hmem with h | h | h <;> simp at h
        · intro htrue
          simp at htrue
      · intro b m hmem
        simp at hmem
        rcases hmem with ⟨hb, hm⟩ | hmem
        · exact ⟨hb, hm⟩
        · rcases hpost _ hmem with h | h | h <;> simp at h
      · intro m hmem
        simp at hmem
        rcases hpost _ hmem with h | h | h <;> simp at h
    · have hdx2 : dctx = false := by simpa using hdx
      subst hdx2
      have hl2 : (textureLoad env false n).2 = [Event.callWIC false n] := by
        simp [textureLoad, hdds]
      rw [hl2]
      refine ⟨?_, by simp [hdds], ?_, ?_⟩
      · simp only [hdds]
        constructor
        · intro hmem
          simp at hmem
          rcases hpost _ hmem with h | h | h <;> simp at h
        · intro htrue
          simp at htrue
      · intro b m hmem
        simp at hmem
        rcases hmem with ⟨hb, hm⟩ | hmem
        · exact ⟨hb, hm⟩
        · rcases hpost _ hmem with h | h | h <;> simp at h
      · intro m hmem
        simp at hmem
        rcases hpost _ hmem with h | h | h <;> simp at h


/-- Witness for C7: on a concrete miss with a `.png` name and a supplied
context the WIC-with-context loader is called; with a `.dds` name the DDS
loader is called. -/
theorem c7_texture_loader_dispatch_witness :
    Event.callWIC true ['a', '.', 'p', 'n', 'g'] ∈
      (CreateTexture envW true (some ['a', '.', 'p', 'n', 'g']) true sMiss).2.2 ∧
    Event.callDDS ['a', '.', 'd', 'd', 's'] ∈
      (CreateTexture envW false (some ['a', '.', 'd', 'd', 's']) true sMiss).2.2 :=
  ⟨(c7_texture_loader_dispatch envW true sMiss ['a', '.', 'p', 'n', 'g']
      (Or.inr rfl)).2.1.mpr (by decide),
   (c7_texture_loader_dispatch envW false sMiss ['a', '.', 'd', 'd', 's']
      (Or.inr rfl)).1.mpr (by decide)⟩

/-- C9: a null or empty effect name yields a fresh effect on every call with
the effect cache untouched, whatever the sharing flag; an empty-string name
never causes a texture or shader cache insertion. -/
theorem c9_unnamed_not_cached (env : Env) (dctx : Bool) (s : FactoryState) :
    (∀ info : EffectInfo, (info.name = none ∨ info.name = some []) →
       ∀ e s' tr, CreateEffect env dctx info s = (.ok e, s', tr) →
         e.id = s.nextEffectId ∧ s'.nextEffectId = s.nextEffectId + 1 ∧
         s'.mEffectCache = s.mEffectCache)
  ∧ (∀ info : DGSLEffectInfo, (info.name = none ∨ info.name = some []) →
       ∀ e s' tr, CreateDGSLEffect env dctx info s = (.ok e, s', tr) →
         e.id = s.nextEffectId ∧ s'.nextEffectId = s.nextEffectId + 1 ∧
         s'.mEffectCache = s.mEffectCache)
  ∧ (∀ v s' tr, CreateTexture env dctx (some []) true s = (.ok v, s', tr) →
       s'.mTextureCache = s.mTextureCache)
  ∧ (∀ v s' tr, CreatePixelShader env (some []) true s = (.ok v, s', tr) →
       s'.mShaderCache = s.mShaderCache) := by
  refine ⟨?_, ?_, ?_, ?_⟩
  · intro info hname e s' tr h
    have hno : nonEmptyName info.name = none := by
      rcases hname with hn | hn <;> simp [nonEmptyName, hn]
    have hh : effectCacheHit info.name s = none := by
      rw [effectCacheHit, hno]
    rw [CreateEffect_miss_eq env dctx info s hh] at h
    have hsp := (createEffectMiss_spec env dctx info (nonEmptyName info.name)
      true s _).2 e s' tr h
    refine ⟨hsp.1, hsp.2.2.2.2.2.2.2.2.2.2.2.2.1, ?_⟩
    have hc := hsp.2.2.2.2.2.2.2.2.2.2.2.2.2.2.2.2
    rw [hno] at hc
    exact hc
  · intro info hname e s' tr h
    have hno : nonEmptyName info.name = none := by
      rcases hname with hn | hn <;> simp [nonEmptyName, hn]
    have hh : effectCacheHit info.name s = none := by
      rw [effectCacheHit, hno]
    rw [CreateDGSLEffect_miss_eq env dctx info s hh] at h
    have hsp := createDGSLEffectMiss_ok_any env dctx info (nonEmptyName info.name)
      true s _ e s' tr h
    refine ⟨hsp.1, hsp.2.2, ?_⟩
    have hc := hsp.2.1
    rw [hno] at hc
    exact hc
  · intro v s' tr h
    cases hl : List.lookup ([] : List Char) s.mTextureCache with
    | some v0 =>
      cases hs : s.mSharing with
      | true =>
        rw [show CreateTexture env dctx (some []) true s =
            (.ok v0, s, [Event.findTexture []]) by simp [CreateTexture, hl, hs]] at h
        simp at h
        rw [← h.2.1]
      | false =>
        have hred : CreateTexture env dctx (some []) true s =
            textureMiss env dctx [] false s := by
          simp [CreateTexture, hl, hs]
        rw [hred] at h
        have hsp := (textureMiss_spec env dctx [] false s).2 v s' tr h
        simpa using hsp.2.1
    | none =>
      have hred : CreateTexture env dctx (some []) true s =
          textureMiss env dctx [] true s := by
        simp [CreateTexture, hl]
      rw [hred] at h
      have hsp := (textureMiss_spec env dctx [] true s).2 v s' tr h
      simpa using hsp.2.1
  · intro v s' tr h
    cases hl : List.lookup ([] : List Char) s.mShaderCache with
    | some v0 =>
      cases hs : s.mSharing with
      | true =>
        rw [show CreatePixelShader env (some []) true s =
            (.ok v0, s, [Event.findShader []]) by simp [CreatePixelShader, hl, hs]] at h
        simp at h
        rw [← h.2.1]
      | false =>
        have hred : CreatePixelShader env (some []) true s =
            shaderMiss env [] false s := by
          simp [CreatePixelShader, hl, hs]
        rw [hred] at h
        have hsp := (shaderMiss_spec env [] false s).2 v s' tr h
        simpa using hsp.2.1
    | none =>
      have hred : CreatePixelShader env (some []) true s =
          shaderMiss env [] true s := by
        simp [CreatePixelShader, hl]
      rw [hred] at h
      have hsp := (shaderMiss_spec env [] true s).2 v s' tr h
      simpa using hsp.2.1

def infoAnon : EffectInfo :=
  ⟨none, 9, ⟨1, 2, 3⟩, ⟨4, 5, 6⟩, ⟨0, 0, 0⟩, 7, ⟨0, 0, 0⟩, none⟩

/-- Witness for C9: a nameless request on the concrete sharing state builds
a fresh effect and does not grow the cache; an empty texture name is not
inserted. -/
theorem c9_unnamed_not_cached_witness :
    (CreateEffect envW false infoAnon sMiss).2.1.mEffectCache = sMiss.mEffectCache ∧
    (CreateTexture envW false (some []) true sMiss).2.1.mTextureCache =
      sMiss.mTextureCache :=
  ⟨((c9_unnamed_not_cached envW false sMiss).1 infoAnon (Or.inl rfl)
      _ _ _ rfl).2.2,
   (c9_unnamed_not_cached envW false sMiss).2.2.1 _ _ _ rfl⟩

/-- C10: `ReleaseCache` empties all three caches and changes nothing else;
`SetSharing` changes only the sharing flag. -/
theorem c10_release_and_sharing (s : FactoryState) (enabled : Bool) :
    (ReleaseCache s).1.mEffectCache = [] ∧
    (ReleaseCache s).1.mTextureCache = [] ∧
    (ReleaseCache s).1.mShaderCache = [] ∧
    (ReleaseCache s).1.device = s.device ∧
    (ReleaseCache s).1.mSharing = s.mSharing ∧
    (ReleaseCache s).1.nextEffectId = s.nextEffectId ∧
    (SetSharing enabled s).1.mSharing = enabled ∧
    (SetSharing enabled s).1.mEffectCache = s.mEffectCache ∧
    (SetSharing enabled s).1.mTextureCache = s.mTextureCache ∧
    (SetSharing enabled s).1.mShaderCache = s.mShaderCache ∧
    (SetSharing enabled s).1.device = s.device ∧
    (SetSharing enabled s).1.nextEffectId = s.nextEffectId :=
  ⟨rfl, rfl, rfl, rfl, rfl, rfl, rfl, rfl, rfl, rfl, rfl, rfl⟩

/-- C6 counterexample: the cache lookup of a concrete `CreateTexture` call
(line 272 of the source) happens outside the mutex, so not every cache
access is performed under the lock. -/
theorem c6_lookup_outside_lock_cex :
    lockedFor isCacheAccess 0
      (CreateTexture envW false (some ['t']) true sRes).2.2 = false := by
  decide

/-- C6 amended: every cache mutation — the inserts in `CreateEffect`,
`CreateDGSLEffect`, `CreateTexture` and `CreatePixelShader` and the clears in
`ReleaseCache` — happens while the mutex is held; lookups are not covered. -/
theorem c6_mutations_locked (env : Env) (dctx : Bool) (info : EffectInfo)
    (dinfo : DGSLEffectInfo) (name : Option (List Char)) (ov : Bool)
    (s : FactoryState) :
    lockedFor isMutation 0 (CreateEffect env dctx info s).2.2 = true ∧
    lockedFor isMutation 0 (CreateDGSLEffect env dctx dinfo s).2.2 = true ∧
    lockedFor isMutation 0 (CreateTexture env dctx name ov s).2.2 = true ∧
    lockedFor isMutation 0 (CreatePixelShader env name ov s).2.2 = true ∧
    lockedFor isMutation 0 (ReleaseCache s).2 = true :=
  ⟨(CreateEffect_mutLocked env dctx info s).1,
   (CreateDGSLEffect_mutLocked env dctx dinfo s).1,
   (CreateTexture_mutLocked env dctx name ov s).1,
   (CreatePixelShader_mutLocked env name ov s).1,
   (ReleaseCache_mutLocked s).1⟩

/-- Reduce a `CreateDGSLEffect` call that cannot hit the cache to the
corresponding miss computation, for some `wasMiss` flag and find trace. -/
theorem CreateDGSLEffect_to_miss (env : Env) (dctx : Bool)
    (info : DGSLEffectInfo) (s : FactoryState)
    (hmiss : s.mSharing = false ∨ effectCacheHit info.name s = none) :
    ∃ w trF, CreateDGSLEffect env dctx info s =
      createDGSLEffectMiss env dctx info (nonEmptyName info.name) w s trF := by
  rcases hmiss with hs | hh
  · cases hh2 : effectCacheHit info.name s with
    | none => exact ⟨true, _, CreateDGSLEffect_miss_eq env dctx info s hh2⟩
    | some c => exact ⟨false, _, CreateDGSLEffect_nosharing_eq env dctx info s c hh2 hs⟩
  · exact ⟨true, _, CreateDGSLEffect_miss_eq env dctx info s hh⟩

/-- C2: on a newly built DGSL effect, the shader name's root — the substring
after the last underscore, truncated at the first dot, compared
case-insensitively — selects the variant: `lambert` disables specular,
`unlit` disables lighting, `phong` keeps default lighting; any other root
loads the named shader file through `CreatePixelShader` (the fallback
`root + ".cso"` below feature level 10.0, the full name otherwise) and
attaches it to the effect. -/
theorem c2_shader_variant_table (env : Env) (dctx : Bool)
    (info : DGSLEffectInfo) (s : FactoryState) (p : List Char)
    (hp : info.pixelShader = some p) (hpe : p ≠ [])
    (hmiss : s.mSharing = false ∨ effectCacheHit info.name s = none) :
    (wcsicmpEq (shaderRoot p) lambertName = true →
      ∀ e s' tr, CreateDGSLEffect env dctx info s = (.ok e, s', tr) →
        e.ctorPixelShader = none ∧ e.specular = none ∧
        e.specularDisabled = true ∧ e.lightingEnabled = true)
  ∧ (wcsicmpEq (shaderRoot p) lambertName = false →
     wcsicmpEq (shaderRoot p) phongName = true →
      ∀ e s' tr, CreateDGSLEffect env dctx info s = (.ok e, s', tr) →
        e.ctorPixelShader = none ∧ e.lightingEnabled = true ∧
        e.defaultLighting = true)
  ∧ (wcsicmpEq (shaderRoot p) lambertName = false →
     wcsicmpEq (shaderRoot p) phongName = false →
     wcsicmpEq (shaderRoot p) unlitName = true →
      ∀ e s' tr, CreateDGSLEffect env dctx info s = (.ok e, s', tr) →
        e.ctorPixelShader = none ∧ e.lightingEnabled = false ∧
        e.defaultLighting = false)
  ∧ (wcsicmpEq (shaderRoot p) lambertName = false →
     wcsicmpEq (shaderRoot p) phongName = false →
     wcsicmpEq (shaderRoot p) unlitName = false →
     env.featureLevel < D3D_FEATURE_LEVEL_10_0 →
      ∀ e s' tr, CreateDGSLEffect env dctx info s = (.ok e, s', tr) →
        ∃ ps, e.ctorPixelShader = some ps ∧
          (CreatePixelShader env (some (shaderRoot p ++ csoExt)) true s).1 = .ok ps)
  ∧ (wcsicmpEq (shaderRoot p) lambertName = false →
     wcsicmpEq (shaderRoot p) phongName = false →
     wcsicmpEq (shaderRoot p) unlitName = false →
     ¬ env.featureLevel < D3D_FEATURE_LEVEL_10_0 →
      ∀ e s' tr, CreateDGSLEffect env dctx info s = (.ok e, s', tr) →
        ∃ ps, e.ctorPixelShader = some ps ∧
          (CreatePixelShader env (some p) true s).1 = .ok ps) := by
  obtain ⟨w, trF, hred⟩ := CreateDGSLEffect_to_miss env dctx info s hmiss
  have hpn : nonEmptyName info.pixelShader = some p := nonEmptyName_some hp hpe
  refine ⟨?_, ?_, ?_, ?_, ?_⟩
  · intro hlam e s' tr h
    rw [hred] at h
    have hsel : selectShader env info.pixelShader s = (.ok (none, true, false), s, []) := by
      rw [selectShader, hpn]
      simp [hlam]
    have hok := createDGSLEffectMiss_ok env dctx info _ w s trF
      none true false s [] hsel e s' tr h
    refine ⟨hok.2.1, ?_, ?_, hok.2.2.2.1⟩
    · rw [hok.2.2.2.2.2.2.2.1]
      simp
    · rw [hok.2.2.2.2.2.2.2.2.1]
      simp
  · intro hlam hpho e s' tr h
    rw [hred] at h
    have hsel : selectShader env info.pixelShader s = (.ok (none, true, true), s, []) := by
      rw [selectShader, hpn]
      simp [hlam, hpho]
    have hok := createDGSLEffectMiss_ok env dctx info _ w s trF
      none true true s [] hsel e s' tr h
    exact ⟨hok.2.1, hok.2.2.2.1, hok.2.2.1⟩
  · intro hlam hpho hunl e s' tr h
    rw [hred] at h
    have hsel : selectShader env info.pixelShader s = (.ok (none, false, true), s, []) := by
      rw [selectShader, hpn]
      simp [hlam, hpho, hunl]
    have hok := createDGSLEffectMiss_ok env dctx info _ w s trF
      none false true s [] hsel e s' tr h
    exact ⟨hok.2.1, hok.2.2.2.1, hok.2.2.1⟩
  · intro hlam hpho hunl hfl e s' tr h
    rw [hred] at h
    rcases hcp : CreatePixelShader env (some (shaderRoot p ++ csoExt)) true s
        with ⟨rcp, s1, trC⟩
    cases rcp with
    | error err =>
      have hsel : selectShader env info.pixelShader s = (.error err, s1, trC) := by
        rw [selectShader, hpn]
        simp [hlam, hpho, hunl, hfl, hcp]
      rw [createDGSLEffectMiss] at h
      simp only [hsel] at h
      simp at h
    | ok psv =>
      have hsel : selectShader env info.pixelShader s =
          (.ok (some psv, true, true), s1, trC) := by
        rw [selectShader, hpn]
        simp [hlam, hpho, hunl, hfl, hcp]
      have hok := createDGSLEffectMiss_ok env dctx info _ w s trF
        (some psv) true true s1 trC hsel e s' tr h
      exact ⟨psv, hok.2.1, rfl⟩
  · intro hlam hpho hunl hfl e s' tr h
    rw [hred] at h
    rcases hcp : CreatePixelShader env (some p) true s with ⟨rcp, s1, trC⟩
    cases rcp with
    | error err =>
      have hsel : selectShader env info.pixelShader s = (.error err, s1, trC) := by
        rw [selectShader, hpn]
        simp [hlam, hpho, hunl, hfl, hcp]
      rw [createDGSLEffectMiss] at h
      simp only [hsel] at h
      simp at h
    | ok psv =>
      have hsel : selectShader env info.pixelShader s =
          (.ok (some psv, true, true), s1, trC) := by
        rw [selectShader, hpn]
        simp [hlam, hpho, hunl, hfl, hcp]
      have hok := createDGSLEffectMiss_ok env dctx info _ w s trF
        (some psv) true true s1 trC hsel e s' tr h
      exact ⟨psv, hok.2.1, rfl⟩

def dinfoLam : DGSLEffectInfo :=
  ⟨⟨some ['q'], 9, ⟨1, 2, 3⟩, ⟨4, 5, 6⟩, ⟨1, 0, 0⟩, 7, ⟨0, 1, 0⟩, none⟩,
   some ['A', '_', 'L', 'A', 'M', 'B', 'E', 'R', 'T', '.', 'd', 'g', 's', 'l'],
   []⟩

def effLam : DGSLEffect :=
  { id := 5, ctorPixelShader := none, defaultLighting := true,
    lightingEnabled := true, ambientColor := ⟨1, 2, 3⟩,
    diffuseColor := ⟨4, 5, 6⟩, alpha := 9, specular := none,
    specularDisabled := true, emissive := some ⟨0, 1, 0⟩,
    textureSlots := List.replicate 8 none, textureEnabled := false }

def sLamAfter : FactoryState := ⟨0, true, [(['q'], effLam)], [], [], 6⟩

def trLam : List Event :=
  [Event.findEffect ['q'], Event.lock, Event.insertEffect ['q'], Event.unlock]

/-- Witness for C2: a shader named `A_LAMBERT.dgsl` (root `LAMBERT`, compared
case-insensitively) yields an effect with no constructor shader and specular
disabled. -/
theorem c2_shader_variant_table_witness :
    effLam.ctorPixelShader = none ∧ effLam.specular = none ∧
    effLam.specularDisabled = true ∧ effLam.lightingEnabled = true :=
  (c2_shader_variant_table envW false dinfoLam sMiss
      ['A', '_', 'L', 'A', 'M', 'B', 'E', 'R', 'T', '.', 'd', 'g', 's', 'l']
      rfl (by decide) (Or.inr rfl)).1
    (by decide) effLam sLamAfter trLam rfl

/-- C4: every newly built effect is configured exactly from the description:
ambient, diffuse and alpha always; specular only when some component is
nonzero (and, for DGSL effects, only when the variant allows it, otherwise
explicitly disabled — in particular `allowSpecular` is false exactly for the
`lambert` variant); emissive only when some component is nonzero; each
texture slot filled and texturing enabled only when its name is non-null and
non-empty. -/
theorem c4_effect_configuration (env : Env) (dctx : Bool) (info : EffectInfo)
    (dinfo : DGSLEffectInfo) (s : FactoryState) :
    ((s.mSharing = false ∨ effectCacheHit info.name s = none) →
      ∀ e s' tr, CreateEffect env dctx info s = (.ok e, s', tr) →
       e.ambientColor = info.ambientColor ∧ e.diffuseColor = info.diffuseColor ∧
       e.alpha = info.alpha ∧
       e.specular = (if isNonzero3 info.specularColor then
           some (info.specularColor, info.specularPower) else none) ∧
       e.emissive = (if isNonzero3 info.emissiveColor then
           some info.emissiveColor else none) ∧
       (e.textureSlots.getD 0 none).isSome = (nonEmptyName info.texture).isSome ∧
       e.textureEnabled = (nonEmptyName info.texture).isSome)
  ∧ ((s.mSharing = false ∨ effectCacheHit dinfo.name s = none) →
      ∀ ps lighting allowSpec s1 trS,
       selectShader env dinfo.pixelShader s = (.ok (ps, lighting, allowSpec), s1, trS) →
       ∀ e s' tr, CreateDGSLEffect env dctx dinfo s = (.ok e, s', tr) →
         e.ambientColor = dinfo.ambientColor ∧
         e.diffuseColor = dinfo.diffuseColor ∧ e.alpha = dinfo.alpha ∧
         e.specular = (if allowSpec && isNonzero3 dinfo.specularColor then
             some (dinfo.specularColor, dinfo.specularPower) else none) ∧
         e.specularDisabled = !(allowSpec && isNonzero3 dinfo.specularColor) ∧
         e.emissive = (if isNonzero3 dinfo.emissiveColor then
             some dinfo.emissiveColor else none) ∧
         (e.textureSlots.getD 0 none).isSome = (nonEmptyName dinfo.texture).isSome ∧
         (∀ j, j < 7 → (e.textureSlots.getD (j + 1) none).isSome =
            (nonEmptyName (dinfo.textures.getD j none)).isSome) ∧
         e.textureEnabled = ((nonEmptyName dinfo.texture).isSome ||
            (slotList dinfo).any (fun q => (nonEmptyName q.2).isSome)))
  ∧ (∀ p, dinfo.pixelShader = some p → p ≠ [] →
       ∀ ps lighting allowSpec s1 trS,
        selectShader env dinfo.pixelShader s = (.ok (ps, lighting, allowSpec), s1, trS) →
        (allowSpec = false ↔ wcsicmpEq (shaderRoot p) lambertName = true)) := by
  refine ⟨?_, ?_, ?_⟩
  · intro hmiss e s' tr h
    obtain ⟨w, trF, hred⟩ : ∃ w trF, CreateEffect env dctx info s =
        createEffectMiss env dctx info (nonEmptyName info.name) w s trF := by
      rcases hmiss with hs | hh
      · cases hh2 : effectCacheHit info.name s with
        | none => exact ⟨true, _, CreateEffect_miss_eq env dctx info s hh2⟩
        | some c => exact ⟨false, _, CreateEffect_nosharing_eq env dctx info s c hh2 hs⟩
      · exact ⟨true, _, CreateEffect_miss_eq env dctx info s hh⟩
    rw [hred] at h
    have hsp := (createEffectMiss_spec env dctx info (nonEmptyName info.name)
      w s trF).2 e s' tr h
    exact ⟨hsp.2.2.2.2.1, hsp.2.2.2.2.2.1, hsp.2.2.2.2.2.2.1,
           hsp.2.2.2.2.2.2.2.1, hsp.2.2.2.2.2.2.2.2.2.1,
           hsp.2.2.2.2.2.2.2.2.2.2.2.1, hsp.2.2.2.2.2.2.2.2.2.2.1⟩
  · intro hmiss ps lighting allowSpec s1 trS hsel e s' tr h
    obtain ⟨w, trF, hred⟩ := CreateDGSLEffect_to_miss env dctx dinfo s hmiss
    rw [hred] at h
    have hok := createDGSLEffectMiss_ok env dctx dinfo _ w s trF
      ps lighting allowSpec s1 trS hsel e s' tr h
    exact ⟨hok.2.2.2.2.1, hok.2.2.2.2.2.1, hok.2.2.2.2.2.2.1,
           hok.2.2.2.2.2.2.2.1, hok.2.2.2.2.2.2.2.2.1,
           hok.2.2.2.2.2.2.2.2.2.1, hok.2.2.2.2.2.2.2.2.2.2.1,
           hok.2.2.2.2.2.2.2.2.2.2.2.1, hok.2.2.2.2.2.2.2.2.2.2.2.2.1⟩
  · intro p hp hpe ps lighting allowSpec s1 trS hsel
    have hpn : nonEmptyName dinfo.pixelShader = some p := nonEmptyName_some hp hpe
    rw [selectShader, hpn] at hsel
    by_cases hlam : wcsicmpEq (shaderRoot p) lambertName = true
    · simp [hlam] at hsel
      simp [hlam, hsel.1.2.2.symm]
    · simp only [hlam] at hsel
      simp only [Bool.false_eq_true, if_false] at hsel
      by_cases hpho : wcsicmpEq (shaderRoot p) phongName = true
      · simp [hpho] at hsel
        simp [hlam, hsel.1.2.2.symm]
      · simp only [hpho, Bool.false_eq_true, if_false] at hsel
        by_cases hunl : wcsicmpEq (shaderRoot p) unlitName = true
        · simp [hunl] at hsel
          simp [hlam, hsel.1.2.2.symm]
        · simp only [hunl, Bool.false_eq_true, if_false] at hsel
          by_cases hfl : env.featureLevel < D3D_FEATURE_LEVEL_10_0
          · simp only [hfl, if_true] at hsel
            rcases hcp : CreatePixelShader env (some (shaderRoot p ++ csoExt)) true s
                with ⟨rcp, s2, trC⟩
            rw [hcp] at hsel
            cases rcp with
            | error err => simp at hsel
            | ok psv =>
              simp at hsel
              simp [hlam, hsel.1.2.2.symm]
          · simp only [hfl, if_false] at hsel
            rcases hcp : CreatePixelShader env (some p) true s with ⟨rcp, s2, trC⟩
            rw [hcp] at hsel
            cases rcp with
            | error err => simp at hsel
            | ok psv =>
              simp at hsel
              simp [hlam, hsel.1.2.2.symm]

def effA : DGSLEffect :=
  { id := 5, ctorPixelShader := none, defaultLighting := true,
    lightingEnabled := true, ambientColor := ⟨1, 2, 3⟩,
    diffuseColor := ⟨4, 5, 6⟩, alpha := 9,
    specular := some (⟨1, 0, 0⟩, 7), specularDisabled := false,
    emissive := some ⟨0, 1, 0⟩,
    textureSlots := [some 100, none, none, none, none, none, none, none],
    textureEnabled := true }

def sAAfter : FactoryState :=
  ⟨0, true, [(['m'], effA)], [(['t', '.', 'd', 'd', 's'], 100)], [], 6⟩

def trA : List Event :=
  [Event.findEffect ['m'], Event.findTexture ['t', '.', 'd', 'd', 's'],
   Event.callDDS ['t', '.', 'd', 'd', 's'], Event.lock,
   Event.insertTexture ['t', '.', 'd', 'd', 's'], Event.unlock,
   Event.lock, Event.insertEffect ['m'], Event.unlock]

/-- Witness for C4: the concrete `CreateEffect` run sets ambient, diffuse,
alpha, specular, emissive and the texture slot exactly from the concrete
description. -/
theorem c4_effect_configuration_witness :
    effA.ambientColor = infoW.ambientColor ∧
    effA.diffuseColor = infoW.diffuseColor ∧ effA.alpha = infoW.alpha ∧
    effA.specular = (if isNonzero3 infoW.specularColor then
        some (infoW.specularColor, infoW.specularPower) else none) ∧
    effA.emissive = (if isNonzero3 infoW.emissiveColor then
        some infoW.emissiveColor else none) ∧
    (effA.textureSlots.getD 0 none).isSome = (nonEmptyName infoW.texture).isSome ∧
    effA.textureEnabled = (nonEmptyName infoW.texture).isSome :=
  (c4_effect_configuration envW false infoW dinfoW sMiss).1
    (Or.inr rfl) effA sAAfter trA rfl

/-! ### The per-device instance pool (C5) -/

/-- Invariant of the instance pool: allocated `Impl` identifiers are below
the allocator and no `Impl` is shared between two devices. -/
def poolGood (pool : List (Nat × Nat)) (fresh : Nat) : Prop :=
  (∀ p ∈ pool, p.2 < fresh) ∧
  (∀ p ∈ pool, ∀ q ∈ pool, p.2 = q.2 → p.1 = q.1)

theorem DemandCreate_good {pool : List (Nat × Nat)} {fresh : Nat} (d : Nat)
    (h : poolGood pool fresh) :
    poolGood (DemandCreate pool fresh d).2.1 (DemandCreate pool fresh d).2.2 := by
  rw [DemandCreate]
  cases hl : List.lookup d pool with
  | some impl => exact h
  | none =>
    constructor
    · intro p hp
      simp at hp
      rcases hp with hp | hp
      · exact Nat.lt_succ_of_lt (h.1 p hp)
      · rw [hp]
        exact Nat.lt_succ_self fresh
    · intro p hp q hq hpq
      simp at hp hq
      rcases hp with hp | hp <;> rcases hq with hq | hq
      · exact h.2 p hp q hq hpq
      · exfalso
        have := h.1 p hp
        rw [hq] at hpq
        simp at hpq
        omega
      · exfalso
        have := h.1 q hq
        rw [hp] at hpq
        simp at hpq
        omega
      · rw [hp, hq]

theorem DemandCreate_lookup (pool : List (Nat × Nat)) (fresh : Nat) (d : Nat) :
    List.lookup d (DemandCreate pool fresh d).2.1 =
      some (DemandCreate pool fresh d).1 := by
  rw [DemandCreate]
  cases hl : List.lookup d pool with
  | some impl => exact hl
  | none =>
    simp only
    rw [lookup_append_none _ hl]
    simp [List.lookup]

theorem DemandCreate_stable {pool : List (Nat × Nat)} {fresh : Nat} (d : Nat)
    {k v : Nat} (h : List.lookup k pool = some v) :
    List.lookup k (DemandCreate pool fresh d).2.1 = some v := by
  rw [DemandCreate]
  cases hl : List.lookup d pool with
  | some impl => exact h
  | none => exact lookup_append_some _ h

theorem constructAll_spec : ∀ (ds : List Nat) (pool : List (Nat × Nat))
    (fresh : Nat), poolGood pool fresh →
    poolGood (constructAll ds pool fresh).2.1 (constructAll ds pool fresh).2.2 ∧
    (∀ k v, List.lookup k pool = some v →
       List.lookup k (constructAll ds pool fresh).2.1 = some v) ∧
    (constructAll ds pool fresh).1.length = ds.length ∧
    (∀ (i d : Nat), ds[i]? = some d →
       ∃ impl, ((constructAll ds pool fresh).1)[i]? = some impl ∧
         List.lookup d (constructAll ds pool fresh).2.1 = some impl) := by
  intro ds
  induction ds with
  | nil =>
    intro pool fresh hg
    refine ⟨hg, fun k v h => h, rfl, ?_⟩
    intro i d h
    simp at h
  | cons d ds ih =>
    intro pool fresh hg
    have hg1 := DemandCreate_good d hg
    obtain ⟨ihg, ihstable, ihlen, ihidx⟩ :=
      ih (DemandCreate pool fresh d).2.1 (DemandCreate pool fresh d).2.2 hg1
    refine ⟨?_, ?_, ?_, ?_⟩
    · simpa [constructAll] using ihg
    · intro k v h
      simpa [constructAll] using ihstable k v (DemandCreate_stable d h)
    · simpa [constructAll] using ihlen
    · intro i dv h
      cases i with
      | zero =>
        simp at h
        subst h
        refine ⟨(DemandCreate pool fresh d).1, by simp [constructAll], ?_⟩
        simpa [constructAll] using
          ihstable d (DemandCreate pool fresh d).1 (DemandCreate_lookup pool fresh d)
      | succ m =>
        simp at h
        obtain ⟨impl, h1, h2⟩ := ihidx m dv h
        refine ⟨impl, ?_, ?_⟩
        · simpa [constructAll] using h1
        · simpa [constructAll] using h2

/-- C5.  Modelled from the spec: `SharedResourcePool` and `DemandCreate` are
declared in `SharedResourcePool.h`, which is not among the provided sources;
the pool is modelled per the spec's "caching layer keyed by device instance"
and the comment "Only one of these helpers is allocated per D3D device".
For every sequence of factory constructions from an empty pool, two factories
share the same `Impl` exactly when they were constructed on the same
device. -/
theorem c5_per_device_impl (ds : List Nat) (i j : Nat) (di dj vi vj : Nat)
    (hdi : ds[i]? = some di) (hdj : ds[j]? = some dj)
    (hvi : (constructAll ds [] 0).1[i]? = some vi)
    (hvj : (constructAll ds [] 0).1[j]? = some vj) :
    di = dj ↔ vi = vj := by
  obtain ⟨hgood, _, _, hidx⟩ := constructAll_spec ds [] 0 ⟨by simp, by simp⟩
  obtain ⟨v1, hv1, hl1⟩ := hidx i di hdi
  obtain ⟨v2, hv2, hl2⟩ := hidx j dj hdj
  rw [hvi] at hv1
  rw [hvj] at hv2
  have hv1e : v1 = vi := by injection hv1 with h; exact h.symm
  have hv2e : v2 = vj := by injection hv2 with h; exact h.symm
  subst hv1e hv2e
  constructor
  · intro hd
    subst hd
    rw [hl1] at hl2
    exact Option.some.inj hl2
  · intro hv
    subst hv
    have m1 := lookup_mem hl1
    have m2 := lookup_mem hl2
    exact hgood.2 _ m1 _ m2 rfl

/-- Witness for C5: constructing on devices `[3, 4, 3]` yields impls
`[0, 1, 0]`; the first and third factories (same device) share the impl. -/
theorem c5_per_device_impl_witness :
    (constructAll [3, 4, 3] [] 0).1 = [0, 1, 0] ∧ ((3 : Nat) = 3 ↔ (0 : Nat) = 0) :=
  ⟨rfl, c5_per_device_impl [3, 4, 3] 0 2 3 3 0 0 rfl rfl rfl rfl⟩

end DGSLFactory
